import Mathlib

/-!
# EtherCatMotorExample: register access, bring-up, motion sequence, monitor

A shallow embedding of `main.c`.  The program is sequential C code that talks
to the SOEM library; every library entry point the program calls is a field of
the structure `SOEM`, acting on the memory the library shares with the program
(`ec_slave`, `ec_slavecount`) and on a private state of type `σ`.  The program
itself is embedded as state-passing functions over `World σ`, which adds to the
memory two records kept by the embedding only: the library calls made so far
and the console output produced so far (as the arguments handed to `printf`).

C integers are `Nat`/`Int` with explicit reductions: a `uintN_t` variable holds
a `Nat` below `2 ^ N`, a C `int` holds an `Int` in `[-2^31, 2^31)`.
-/

namespace EthercatMotor

/-! ## Data model -/

/-- The fields of SOEM's per-slave record `ec_slave[i]` that `main.c` touches. -/
structure ec_slavet where
  state : Nat
  ALstatuscode : Nat
  Obits : Nat
  Obytes : Nat
  Ibits : Nat
  Ibytes : Nat
deriving DecidableEq, Repr

/-- Memory shared between the program and the library: the globals `ec_slave`
and `ec_slavecount` of SOEM, and the library's own state `priv` (bus, devices,
the `IOmap` buffer handed over by `ec_config_map`). -/
structure Mem (σ : Type) where
  ec_slave : Nat → ec_slavet
  ec_slavecount : Int
  priv : σ

/-- One library call as a recording test double sees it, arguments in the
order of the C prototype.  `SDOwrite` carries the bytes behind the data pointer
as a number; `SDOread` carries the buffer size passed in `*psize`;
`writestate` also carries the value of `ec_slave[slave].state` at the time of
the call, which is the state SOEM's `ec_writestate` requests. -/
inductive Call where
  | wiznet_hw_config (a b c : Nat)
  | init (ifname : String)
  | config_init (usetable : Bool)
  | config_map
  | statecheck (slave reqstate timeout : Nat)
  | send_processdata
  | receive_processdata (timeout : Nat)
  | writestate (slave requested : Nat)
  | readstate
  | close
  | SDOwrite (slave index subindex : Nat) (CA : Bool) (psize value timeout : Nat)
  | SDOread (slave index subindex : Nat) (CA : Bool) (psize timeout : Nat)
deriving DecidableEq, Repr

/-- Console output, one constructor per `printf`/`PrintError` call site of
`main.c`, carrying the arguments of the format string. -/
inductive Out where
  | ErrorWrite8 (Index Value : Nat)
  | ErrorWrite16 (Index Value : Nat)
  | ErrorWrite32 (Index Value : Nat)
  | ErrorRead8 (Index SubIndex : Nat)
  | ErrorRead16 (Index SubIndex : Nat)
  | ErrorRead32 (Index SubIndex : Nat)
  | ErrorFailedToInit
  | NotAllOperational
  | SlaveLine (i state ALstatuscode : Nat) (text : String)
  | NoSlavesFound
  | NoSocket (ifname : String)
  | POS (Pos : Int) (Status : Nat)
  | Newline
  | GOTO (pos : Int)
deriving DecidableEq, Repr

/-- The SOEM library as `main.c` uses it: the constants of its headers and the
entry points called, each a function of the shared memory.  Nothing is assumed
about any of them. -/
structure SOEM (σ : Type) where
  EC_TIMEOUTRET : Nat
  EC_TIMEOUTRXM : Nat
  EC_TIMEOUTSTATE : Nat
  EC_STATE_PRE_OP : Nat
  EC_STATE_SAFE_OP : Nat
  EC_STATE_OPERATIONAL : Nat
  wiznet_hw_config : Mem σ → Nat → Nat → Nat → Mem σ
  ec_init : Mem σ → String → Mem σ × Int
  ec_config_init : Mem σ → Bool → Mem σ × Int
  ec_config_map : Mem σ → Mem σ × Int
  ec_statecheck : Mem σ → Nat → Nat → Nat → Mem σ × Nat
  ec_send_processdata : Mem σ → Mem σ × Int
  ec_receive_processdata : Mem σ → Nat → Mem σ × Int
  ec_writestate : Mem σ → Nat → Mem σ × Int
  ec_readstate : Mem σ → Mem σ × Int
  ec_close : Mem σ → Mem σ
  ec_ALstatuscode2string : Nat → String
  /-- Arguments: slave, index, subindex, CA, size, data, timeout; result: the
  memory afterwards and the work counter. -/
  ec_SDOwrite : Mem σ → Nat → Nat → Nat → Bool → Nat → Nat → Nat → Mem σ × Int
  /-- Arguments: slave, index, subindex, CA, size, buffer content on entry,
  timeout; result: the memory afterwards, the work counter and the buffer
  content on return. -/
  ec_SDOread : Mem σ → Nat → Nat → Nat → Bool → Nat → Nat → Nat → Mem σ × Int × Nat

/-- Program state: the shared memory, the library calls made so far (oldest
first) and the console output so far (oldest first). -/
structure World (σ : Type) where
  mem : Mem σ
  calls : List Call
  out : List Out

variable {σ : Type}

/-- Record a library call. -/
def World.call (w : World σ) (c : Call) (m : Mem σ) : World σ :=
  { mem := m, calls := w.calls ++ [c], out := w.out }

/-- Record a line of console output. -/
def World.print (w : World σ) (o : Out) : World σ :=
  { w with out := w.out ++ [o] }

/-! ## Constants of `main.c`

`DEGREE_PULSES`, `START_ACCELERATION` and `STOP_DECELERATION` are defined by
`main.c` and not used by it: `GotoPos` spells the values out. -/

def SLAVEINDEX : Nat := 1
def REVOLUTION_PULSES : Int := 0x6500000
def DEGREE_PULSES : Int := Int.tdiv REVOLUTION_PULSES 360
def START_ACCELERATION : Nat := 0x96
def STOP_DECELERATION : Nat := 0x96

/-- Conversion of an integer to `uintN_t`: reduction modulo `2 ^ N`. -/
def toUInt (N : Nat) (x : Int) : Nat := (x % (2 : Int) ^ N).toNat

/-- Conversion of an integer to `intN_t` on a two's-complement machine. -/
def toSInt (N : Nat) (x : Int) : Int :=
  let r := x % (2 : Int) ^ N
  if r < (2 : Int) ^ (N - 1) then r else r - (2 : Int) ^ N

/-! ## Register access layer -/

def SOEM_Write8 (L : SOEM σ) (Index SubIndex Value : Nat) (w : World σ) : Bool × World σ :=
  let r := L.ec_SDOwrite w.mem SLAVEINDEX Index SubIndex false 1 Value L.EC_TIMEOUTRXM
  let w1 := w.call (Call.SDOwrite SLAVEINDEX Index SubIndex false 1 Value L.EC_TIMEOUTRXM) r.1
  if r.2 = 0 then (false, w1.print (Out.ErrorWrite8 Index Value)) else (true, w1)

def SOEM_Write16 (L : SOEM σ) (Index SubIndex Value : Nat) (w : World σ) : Bool × World σ :=
  let r := L.ec_SDOwrite w.mem SLAVEINDEX Index SubIndex false 2 Value L.EC_TIMEOUTRXM
  let w1 := w.call (Call.SDOwrite SLAVEINDEX Index SubIndex false 2 Value L.EC_TIMEOUTRXM) r.1
  if r.2 = 0 then (false, w1.print (Out.ErrorWrite16 Index Value)) else (true, w1)

def SOEM_Write32 (L : SOEM σ) (Index SubIndex Value : Nat) (w : World σ) : Bool × World σ :=
  let r := L.ec_SDOwrite w.mem SLAVEINDEX Index SubIndex false 4 Value L.EC_TIMEOUTRXM
  let w1 := w.call (Call.SDOwrite SLAVEINDEX Index SubIndex false 4 Value L.EC_TIMEOUTRXM) r.1
  if r.2 = 0 then (false, w1.print (Out.ErrorWrite32 Index Value)) else (true, w1)

def SOEM_Read8 (L : SOEM σ) (Index SubIndex : Nat) (w : World σ) : Nat × World σ :=
  let r := L.ec_SDOread w.mem SLAVEINDEX Index SubIndex false 1 0 L.EC_TIMEOUTRXM
  let w1 := w.call (Call.SDOread SLAVEINDEX Index SubIndex false 1 L.EC_TIMEOUTRXM) r.1
  if r.2.1 = 0 then (0, w1.print (Out.ErrorRead8 Index SubIndex)) else (r.2.2 % 2 ^ 8, w1)

def SOEM_Read16 (L : SOEM σ) (Index SubIndex : Nat) (w : World σ) : Nat × World σ :=
  let r := L.ec_SDOread w.mem SLAVEINDEX Index SubIndex false 2 0 L.EC_TIMEOUTRXM
  let w1 := w.call (Call.SDOread SLAVEINDEX Index SubIndex false 2 L.EC_TIMEOUTRXM) r.1
  if r.2.1 = 0 then (0, w1.print (Out.ErrorRead16 Index SubIndex)) else (r.2.2 % 2 ^ 16, w1)

def SOEM_Read32 (L : SOEM σ) (Index SubIndex : Nat) (w : World σ) : Nat × World σ :=
  let r := L.ec_SDOread w.mem SLAVEINDEX Index SubIndex false 4 0 L.EC_TIMEOUTRXM
  let w1 := w.call (Call.SDOread SLAVEINDEX Index SubIndex false 4 L.EC_TIMEOUTRXM) r.1
  if r.2.1 = 0 then (0, w1.print (Out.ErrorRead32 Index SubIndex)) else (r.2.2 % 2 ^ 32, w1)

/-! ## Network bring-up and teardown -/

/-- Assignment `ec_slave[i].state = v`. -/
def Mem.setState (m : Mem σ) (i v : Nat) : Mem σ :=
  { m with ec_slave := fun j => if j = i then { m.ec_slave j with state := v } else m.ec_slave j }

/-- Body of the diagnostic loop of `InitECat` for one value of `i`. -/
def InitECat.report (L : SOEM σ) (w : World σ) (i : Nat) : World σ :=
  if (w.mem.ec_slave i).state ≠ L.EC_STATE_OPERATIONAL then
    w.print (Out.SlaveLine i (w.mem.ec_slave i).state (w.mem.ec_slave i).ALstatuscode
      (L.ec_ALstatuscode2string (w.mem.ec_slave i).ALstatuscode))
  else w

/-- The loop `for(i=1;i<=ec_slavecount;i++)` of `InitECat`. -/
def InitECat.listing (L : SOEM σ) (w : World σ) : World σ :=
  (List.range' 1 w.mem.ec_slavecount.toNat).foldl (InitECat.report L) w

/-- Lines 352 to 355 of `main.c`, in `InitECat`: hardware parameters and
`ec_init`; returns the result of `ec_init`. -/
def InitECat.connect (L : SOEM σ) (w : World σ) : Int × World σ :=
  let w := w.call (Call.wiznet_hw_config 8 1 1000000) (L.wiznet_hw_config w.mem 8 1 1000000)
  let r := L.ec_init w.mem "wiznet"
  (r.2, w.call (Call.init "wiznet") r.1)

/-- Line 358 of `main.c`, in `InitECat`: `ec_config_init(false)`; returns its
result. -/
def InitECat.configure (L : SOEM σ) (w : World σ) : Int × World σ :=
  let r := L.ec_config_init w.mem false
  (r.2, w.call (Call.config_init false) r.1)

/-- Lines 360 to 381 of `main.c`, in `InitECat`: from `ec_config_map` to the
wait for Operational. -/
def InitECat.bringUp (L : SOEM σ) (w : World σ) : World σ :=
  let r := L.ec_config_map w.mem
  let w := w.call Call.config_map r.1
  let r := L.ec_statecheck w.mem 0 L.EC_STATE_SAFE_OP (L.EC_TIMEOUTSTATE * 4)
  let w := w.call (Call.statecheck 0 L.EC_STATE_SAFE_OP (L.EC_TIMEOUTSTATE * 4)) r.1
  -- `oloop` and `iloop` are computed here and never read
  let oloop := (w.mem.ec_slave 0).Obytes
  let _oloop := if oloop = 0 ∧ (w.mem.ec_slave 0).Obits > 0 then 1 else oloop
  let iloop := (w.mem.ec_slave 0).Ibytes
  let _iloop := if iloop = 0 ∧ (w.mem.ec_slave 0).Ibits > 0 then 1 else iloop
  let w := { w with mem := w.mem.setState 0 L.EC_STATE_OPERATIONAL }
  let r := L.ec_send_processdata w.mem
  let w := w.call Call.send_processdata r.1
  let r := L.ec_receive_processdata w.mem L.EC_TIMEOUTRET
  let w := w.call (Call.receive_processdata L.EC_TIMEOUTRET) r.1
  let r := L.ec_writestate w.mem 0
  let w := w.call (Call.writestate 0 (w.mem.ec_slave 0).state) r.1
  let r := L.ec_statecheck w.mem 0 L.EC_STATE_OPERATIONAL L.EC_TIMEOUTSTATE
  w.call (Call.statecheck 0 L.EC_STATE_OPERATIONAL L.EC_TIMEOUTSTATE) r.1

/-- Lines 389 to 398 of `main.c`, in `InitECat`: the branch taken when
`ec_slave[0].state` is not Operational after the wait. -/
def InitECat.diagnose (L : SOEM σ) (w : World σ) : World σ :=
  let w := w.print Out.NotAllOperational
  let r := L.ec_readstate w.mem
  let w := w.call Call.readstate r.1
  InitECat.listing L w

def InitECat (L : SOEM σ) (w : World σ) : Bool × World σ :=
  let c := InitECat.connect L w
  if c.1 ≠ 0 then
    let f := InitECat.configure L c.2
    if f.1 > 0 then
      let w := InitECat.bringUp L f.2
      if (w.mem.ec_slave 0).state = L.EC_STATE_OPERATIONAL then
        (true, w)
      else
        (false, InitECat.diagnose L w)
    else
      (false, f.2.print Out.NoSlavesFound)
  else
    (false, c.2.print (Out.NoSocket "wiznet"))

def ShutdownECat (L : SOEM σ) (w : World σ) : World σ :=
  let w := { w with mem := w.mem.setState 0 L.EC_STATE_SAFE_OP }
  let r := L.ec_writestate w.mem 0
  let w := w.call (Call.writestate 0 (w.mem.ec_slave 0).state) r.1
  let r := L.ec_statecheck w.mem 0 L.EC_STATE_SAFE_OP L.EC_TIMEOUTSTATE
  let w := w.call (Call.statecheck 0 L.EC_STATE_SAFE_OP L.EC_TIMEOUTSTATE) r.1
  let w := { w with mem := w.mem.setState 0 L.EC_STATE_PRE_OP }
  let r := L.ec_writestate w.mem 0
  let w := w.call (Call.writestate 0 (w.mem.ec_slave 0).state) r.1
  let r := L.ec_statecheck w.mem 0 L.EC_STATE_PRE_OP L.EC_TIMEOUTSTATE
  let w := w.call (Call.statecheck 0 L.EC_STATE_PRE_OP L.EC_TIMEOUTSTATE) r.1
  w.call Call.close (L.ec_close w.mem)

/-! ## Completion monitor and motion sequence -/

/-- One pass through the body of the `for(;;)` loop of `Wait`, up to and
including the `fflush`: the two reads and the progress line.  Returns the
value of `Status`. -/
def Wait.poll (L : SOEM σ) (w : World σ) : Nat × World σ :=
  let p := SOEM_Read32 L 0x6064 0x00 w
  let Pos := toSInt 32 p.1
  let s := SOEM_Read16 L 0x6041 0x00 p.2
  let Status := s.1
  (Status, s.2.print (Out.POS Pos Status))

/-- The function `Wait`.  The C loop has no bound, so the embedding takes the
number of loop passes it may make: `none` means the loop is still running
after that many passes. -/
def Wait (L : SOEM σ) : Nat → World σ → Option (World σ)
  | 0, _ => none
  | fuel + 1, w =>
    let r := Wait.poll L w
    if r.1 &&& (1 <<< 12) = 0 then some (r.2.print Out.Newline) else Wait L fuel r.2

/-- The statements of `GotoPos` before the call of `Wait`.  The product
`REVOLUTION_PULSES/360*pos` is `int` arithmetic (undefined in C when it leaves
the `int` range, modelled as wrapping) converted to `uint32_t`. -/
def GotoPos.sequence (L : SOEM σ) (pos : Int) (w : World σ) : World σ :=
  let w := w.print (Out.GOTO pos)
  let w := (SOEM_Write8 L 0x6060 0x00 1 w).2
  let w := (SOEM_Write16 L 0x6040 0x00 0x0000 w).2
  let w := (SOEM_Write16 L 0x6040 0x00 0x0006 w).2
  let w := (SOEM_Write16 L 0x6040 0x00 0x0007 w).2
  let w := (SOEM_Write16 L 0x6040 0x00 0x000F w).2
  let w := (SOEM_Write32 L 0x6083 0x00 0x96 w).2
  let w := (SOEM_Write32 L 0x6084 0x00 0x96 w).2
  let w := (SOEM_Write32 L 0x6081 0x00 0x0200 w).2
  let w := (SOEM_Write32 L 0x607A 0x00
    (toUInt 32 (toSInt 32 (Int.tdiv REVOLUTION_PULSES 360 * pos))) w).2
  let w := (SOEM_Write16 L 0x6040 0x00 0x000F w).2
  (SOEM_Write16 L 0x6040 0x00 0x001F w).2

def GotoPos (L : SOEM σ) (fuel : Nat) (pos : Int) (w : World σ) : Option (World σ) :=
  Wait L fuel (GotoPos.sequence L pos w)

/-- The function `main`; `fuel` bounds each call of `Wait`.  Returns the exit
status. -/
def main (L : SOEM σ) (fuel : Nat) (w : World σ) : Option (Int × World σ) :=
  let r := InitECat L w
  if r.1 = false then some (1, r.2.print Out.ErrorFailedToInit)
  else
    (GotoPos L fuel 0 r.2).bind fun w =>
    (GotoPos L fuel 360 w).bind fun w =>
    (GotoPos L fuel 0 w).bind fun w =>
    some (0, ShutdownECat L w)

/-! ## Call sequences named by the specification -/

/-- The register writes of one motion command, in program order, for mailbox
timeout `T` and target word `target`. -/
def motionWrites (T target : Nat) : List Call :=
  [ Call.SDOwrite 1 0x6060 0 false 1 1 T,
    Call.SDOwrite 1 0x6040 0 false 2 0x0000 T,
    Call.SDOwrite 1 0x6040 0 false 2 0x0006 T,
    Call.SDOwrite 1 0x6040 0 false 2 0x0007 T,
    Call.SDOwrite 1 0x6040 0 false 2 0x000F T,
    Call.SDOwrite 1 0x6083 0 false 4 0x96 T,
    Call.SDOwrite 1 0x6084 0 false 4 0x96 T,
    Call.SDOwrite 1 0x6081 0 false 4 0x0200 T,
    Call.SDOwrite 1 0x607A 0 false 4 target T,
    Call.SDOwrite 1 0x6040 0 false 2 0x000F T,
    Call.SDOwrite 1 0x6040 0 false 2 0x001F T ]

/-- The register reads of `n` polls of the completion monitor: each poll is a
32-bit read of 0x6064 followed by a 16-bit read of 0x6041. -/
def pollCalls (T : Nat) : Nat → List Call
  | 0 => []
  | n + 1 =>
    Call.SDOread 1 0x6064 0 false 4 T :: Call.SDOread 1 0x6041 0 false 2 T :: pollCalls T n

/-- The values written to object `index` by the calls of a record, oldest first. -/
def writesTo (index : Nat) (cs : List Call) : List Nat :=
  cs.filterMap fun c =>
    match c with
    | Call.SDOwrite _ i _ _ _ v _ => if i = index then some v else none
    | _ => none

/-- The diagnostic entries of a console record, oldest first: unit index,
state and status code of each `Slave ... State=... StatusCode=...` line. -/
def diagnosticListing (os : List Out) : List (Nat × Nat × Nat) :=
  os.filterMap fun o =>
    match o with
    | Out.SlaveLine i st code _ => some (i, st, code)
    | _ => none

/-- The library call a record stands for, made on memory `m`: the memory the
library hands back.  A register read is made with a zeroed buffer, as every
read of `main.c` is; `writestate slave requested` is the pair of statements
`ec_slave[slave].state = requested; ec_writestate(slave);`. -/
def Call.run (L : SOEM σ) (m : Mem σ) : Call → Mem σ
  | Call.wiznet_hw_config a b c => L.wiznet_hw_config m a b c
  | Call.init ifname => (L.ec_init m ifname).1
  | Call.config_init usetable => (L.ec_config_init m usetable).1
  | Call.config_map => (L.ec_config_map m).1
  | Call.statecheck slave reqstate timeout => (L.ec_statecheck m slave reqstate timeout).1
  | Call.send_processdata => (L.ec_send_processdata m).1
  | Call.receive_processdata timeout => (L.ec_receive_processdata m timeout).1
  | Call.writestate slave requested => (L.ec_writestate (m.setState slave requested) slave).1
  | Call.readstate => (L.ec_readstate m).1
  | Call.close => L.ec_close m
  | Call.SDOwrite slave index subindex CA psize value timeout =>
    (L.ec_SDOwrite m slave index subindex CA psize value timeout).1
  | Call.SDOread slave index subindex CA psize timeout =>
    (L.ec_SDOread m slave index subindex CA psize 0 timeout).1

/-- The memory left by making the calls of `cs` on the library, one after the
other, oldest first, each on the memory the previous one handed back. -/
def replay (L : SOEM σ) (cs : List Call) (m : Mem σ) : Mem σ :=
  cs.foldl (Call.run L) m

/-! ## Test doubles -/

/-- A library double with SOEM's header values whose entry points all succeed:
`ec_init` opens, `ec_config_init` reports the slave count, a state wait stores
the requested state in the record of the slave it was called for and in no
other, register writes are acknowledged and register reads deliver 0. -/
def quietBus (σ : Type) : SOEM σ where
  EC_TIMEOUTRET := 2000
  EC_TIMEOUTRXM := 700000
  EC_TIMEOUTSTATE := 2000000
  EC_STATE_PRE_OP := 2
  EC_STATE_SAFE_OP := 4
  EC_STATE_OPERATIONAL := 8
  wiznet_hw_config := fun m _ _ _ => m
  ec_init := fun m _ => (m, 1)
  ec_config_init := fun m _ => (m, m.ec_slavecount)
  ec_config_map := fun m => (m, 0)
  ec_statecheck := fun m slave reqstate _ => (m.setState slave reqstate, reqstate)
  ec_send_processdata := fun m => (m, 1)
  ec_receive_processdata := fun m _ => (m, 1)
  ec_writestate := fun m _ => (m, 1)
  ec_readstate := fun m => (m, 0)
  ec_close := fun m => m
  ec_ALstatuscode2string := fun _ => ""
  ec_SDOwrite := fun m _ _ _ _ _ _ _ => (m, 1)
  ec_SDOread := fun m _ _ _ _ _ _ _ => (m, 1, 0)

/-- A double that echoes writes: it acknowledges every register write, stores
the value under (index, sub-index), and answers a read of an address with the
value stored there.  The other entry points are those of `L0`. -/
def echoDouble (L0 : SOEM (Nat → Nat → Nat)) : SOEM (Nat → Nat → Nat) :=
  { L0 with
    ec_SDOwrite := fun m _ index subindex _ _ data _ =>
      ({ m with priv := fun i s => if i = index ∧ s = subindex then data else m.priv i s }, 1)
    ec_SDOread := fun m _ index subindex _ _ _ _ => (m, 1, m.priv index subindex) }

/-- A double that supplies a sequence of statusword readings: the `n`-th read
of object 0x6041 (counting from 0, the count kept in `priv`) succeeds and
delivers `S n`; a read of any other object made while `n` statusword reads have
been served answers with work counter `(P n).1` and data `(P n).2`.  The other
entry points are those of `L0`. -/
def scriptDouble (L0 : SOEM Nat) (P : Nat → Int × Nat) (S : Nat → Nat) : SOEM Nat :=
  { L0 with
    ec_SDOread := fun m _ index _ _ _ _ _ =>
      if index = 0x6041 then ({ m with priv := m.priv + 1 }, 1, S m.priv)
      else (m, (P m.priv).1, (P m.priv).2) }

/-- A double whose register reads all fail (work counter 0) while the buffer
comes back holding 0x1237, a statusword with bit 12 set. -/
def deafBus : SOEM Unit :=
  { quietBus Unit with ec_SDOread := fun m _ _ _ _ _ _ _ => (m, 0, 0x1237) }

/-- A double on which the Operational wait times out: a state wait for slave 0
leaves SafeOperational (4) in `ec_slave[0].state`, and `ec_readstate` leaves
the per-unit records as they are. -/
def stuckBus : SOEM Unit :=
  { quietBus Unit with ec_statecheck := fun m slave _ _ => (m.setState slave 4, 4) }

/-- A double whose `ec_init` fails: no socket. -/
def closedBus : SOEM Unit :=
  { quietBus Unit with ec_init := fun m _ => (m, 0) }

/-- A recording double: every entry point appends the record of the call it
receives to the list kept in `priv`, touches nothing else, and returns
`ack n`, where `n` is the number of calls received before; a register read
hands back the buffer as it came.  The record is the library's own: a call
that is not made leaves no entry, a call made twice leaves two. -/
def recordingBus (ack : Nat → Int) : SOEM (List Call) where
  EC_TIMEOUTRET := 2000
  EC_TIMEOUTRXM := 700000
  EC_TIMEOUTSTATE := 2000000
  EC_STATE_PRE_OP := 2
  EC_STATE_SAFE_OP := 4
  EC_STATE_OPERATIONAL := 8
  wiznet_hw_config := fun m a b c => { m with priv := m.priv ++ [Call.wiznet_hw_config a b c] }
  ec_init := fun m ifname =>
    ({ m with priv := m.priv ++ [Call.init ifname] }, ack m.priv.length)
  ec_config_init := fun m usetable =>
    ({ m with priv := m.priv ++ [Call.config_init usetable] }, ack m.priv.length)
  ec_config_map := fun m => ({ m with priv := m.priv ++ [Call.config_map] }, ack m.priv.length)
  ec_statecheck := fun m slave reqstate timeout =>
    ({ m with priv := m.priv ++ [Call.statecheck slave reqstate timeout] },
      (ack m.priv.length).toNat)
  ec_send_processdata := fun m =>
    ({ m with priv := m.priv ++ [Call.send_processdata] }, ack m.priv.length)
  ec_receive_processdata := fun m timeout =>
    ({ m with priv := m.priv ++ [Call.receive_processdata timeout] }, ack m.priv.length)
  ec_writestate := fun m slave =>
    ({ m with priv := m.priv ++ [Call.writestate slave (m.ec_slave slave).state] },
      ack m.priv.length)
  ec_readstate := fun m => ({ m with priv := m.priv ++ [Call.readstate] }, ack m.priv.length)
  ec_close := fun m => { m with priv := m.priv ++ [Call.close] }
  ec_ALstatuscode2string := fun _ => ""
  ec_SDOwrite := fun m slave index subindex CA psize value timeout =>
    ({ m with priv := m.priv ++ [Call.SDOwrite slave index subindex CA psize value timeout] },
      ack m.priv.length)
  ec_SDOread := fun m slave index subindex CA psize buf timeout =>
    ({ m with priv := m.priv ++ [Call.SDOread slave index subindex CA psize timeout] },
      ack m.priv.length, buf)

/-- A world with `n` units in which unit `i` has state `st i` and status code
`code i`, before any call or output. -/
def World.start (priv : σ) (n : Int) (st code : Nat → Nat) : World σ :=
  { mem := { ec_slave := fun i => { state := st i, ALstatuscode := code i,
                                     Obits := 0, Obytes := 0, Ibits := 0, Ibytes := 0 },
             ec_slavecount := n, priv := priv },
    calls := [], out := [] }

/-! ## Lemmas on the records kept by the embedding -/

@[simp] theorem call_calls (w : World σ) (c : Call) (m : Mem σ) :
    (w.call c m).calls = w.calls ++ [c] := rfl

@[simp] theorem call_mem (w : World σ) (c : Call) (m : Mem σ) : (w.call c m).mem = m := rfl

@[simp] theorem call_out (w : World σ) (c : Call) (m : Mem σ) : (w.call c m).out = w.out := rfl

@[simp] theorem print_calls (w : World σ) (o : Out) : (w.print o).calls = w.calls := rfl

@[simp] theorem print_mem (w : World σ) (o : Out) : (w.print o).mem = w.mem := rfl

@[simp] theorem print_out (w : World σ) (o : Out) : (w.print o).out = w.out ++ [o] := rfl

@[simp] theorem setState_state (m : Mem σ) (i v : Nat) : ((m.setState i v).ec_slave i).state = v := by
  simp [Mem.setState]

theorem SOEM_Write8_calls (L : SOEM σ) (Index SubIndex Value : Nat) (w : World σ) :
    (SOEM_Write8 L Index SubIndex Value w).2.calls
      = w.calls ++ [Call.SDOwrite 1 Index SubIndex false 1 Value L.EC_TIMEOUTRXM] := by
  simp only [SOEM_Write8, SLAVEINDEX]
  split <;> rfl

theorem SOEM_Write16_calls (L : SOEM σ) (Index SubIndex Value : Nat) (w : World σ) :
    (SOEM_Write16 L Index SubIndex Value w).2.calls
      = w.calls ++ [Call.SDOwrite 1 Index SubIndex false 2 Value L.EC_TIMEOUTRXM] := by
  simp only [SOEM_Write16, SLAVEINDEX]
  split <;> rfl

theorem SOEM_Write32_calls (L : SOEM σ) (Index SubIndex Value : Nat) (w : World σ) :
    (SOEM_Write32 L Index SubIndex Value w).2.calls
      = w.calls ++ [Call.SDOwrite 1 Index SubIndex false 4 Value L.EC_TIMEOUTRXM] := by
  simp only [SOEM_Write32, SLAVEINDEX]
  split <;> rfl

theorem SOEM_Read8_calls (L : SOEM σ) (Index SubIndex : Nat) (w : World σ) :
    (SOEM_Read8 L Index SubIndex w).2.calls
      = w.calls ++ [Call.SDOread 1 Index SubIndex false 1 L.EC_TIMEOUTRXM] := by
  simp only [SOEM_Read8, SLAVEINDEX]
  split <;> rfl

theorem SOEM_Read16_calls (L : SOEM σ) (Index SubIndex : Nat) (w : World σ) :
    (SOEM_Read16 L Index SubIndex w).2.calls
      = w.calls ++ [Call.SDOread 1 Index SubIndex false 2 L.EC_TIMEOUTRXM] := by
  simp only [SOEM_Read16, SLAVEINDEX]
  split <;> rfl

theorem SOEM_Read32_calls (L : SOEM σ) (Index SubIndex : Nat) (w : World σ) :
    (SOEM_Read32 L Index SubIndex w).2.calls
      = w.calls ++ [Call.SDOread 1 Index SubIndex false 4 L.EC_TIMEOUTRXM] := by
  simp only [SOEM_Read32, SLAVEINDEX]
  split <;> rfl

/-- The calls made by the statements of `GotoPos` that precede `Wait`. -/
theorem sequence_calls (L : SOEM σ) (pos : Int) (w : World σ) :
    (GotoPos.sequence L pos w).calls
      = w.calls ++ motionWrites L.EC_TIMEOUTRXM
          (toUInt 32 (toSInt 32 (Int.tdiv REVOLUTION_PULSES 360 * pos))) := by
  simp only [GotoPos.sequence, SOEM_Write8_calls, SOEM_Write16_calls, SOEM_Write32_calls,
    print_calls, motionWrites, List.append_assoc, List.cons_append, List.nil_append]

/-- The calls made by one pass of the monitor loop. -/
theorem poll_calls (L : SOEM σ) (w : World σ) :
    (Wait.poll L w).2.calls = w.calls ++ pollCalls L.EC_TIMEOUTRXM 1 := by
  simp only [Wait.poll, SOEM_Read32_calls, SOEM_Read16_calls, print_calls, pollCalls,
    List.append_assoc, List.cons_append, List.nil_append]

theorem pollCalls_succ (T n : Nat) : pollCalls T (n + 1) = pollCalls T 1 ++ pollCalls T n := rfl

theorem toUInt_toSInt (x : Int) : toUInt 32 (toSInt 32 x) = toUInt 32 x := by
  simp only [toSInt, toUInt]
  norm_num
  split <;> omega

theorem toSInt_toUInt (x : Int) (hlo : -2147483648 ≤ x) (hhi : x < 2147483648) :
    toSInt 32 (toUInt 32 x) = x := by
  simp only [toSInt, toUInt]
  norm_num
  split <;> omega

/-- The test `!(Status & (1<<12))` of `Wait` on a 16-bit reading of `x`. -/
theorem bit12_clear_iff (x : Nat) : (x % 2 ^ 16) &&& (1 <<< 12) = 0 ↔ x.testBit 12 = false := by
  rw [Nat.one_shiftLeft]
  constructor
  · intro h
    have h12 : Nat.testBit (x % 2 ^ 16 &&& 2 ^ 12) 12 = Nat.testBit 0 12 := by rw [h]
    rw [Nat.testBit_and, Nat.testBit_two_pow_self, Nat.testBit_mod_two_pow,
      Nat.zero_testBit] at h12
    simpa using h12
  · intro h
    apply Nat.eq_of_testBit_eq
    intro i
    rw [Nat.testBit_and, Nat.testBit_mod_two_pow, Nat.testBit_two_pow, Nat.zero_testBit]
    by_cases hi : 12 = i
    · subst hi; simp [h]
    · simp [hi]

theorem writesTo_append (index : Nat) (a b : List Call) :
    writesTo index (a ++ b) = writesTo index a ++ writesTo index b := by
  simp [writesTo, List.filterMap_append]

/-- The values written to the target-position object by one motion command. -/
theorem sequence_target (L : SOEM σ) (pos : Int) (w : World σ) :
    writesTo 0x607A (GotoPos.sequence L pos w).calls
      = writesTo 0x607A w.calls ++ [toUInt 32 (Int.tdiv REVOLUTION_PULSES 360 * pos)] := by
  rw [sequence_calls, writesTo_append, toUInt_toSInt]
  simp [writesTo, motionWrites]

theorem shutdown_calls (L : SOEM σ) (w : World σ) :
    (ShutdownECat L w).calls = w.calls ++
      [ Call.writestate 0 L.EC_STATE_SAFE_OP,
        Call.statecheck 0 L.EC_STATE_SAFE_OP L.EC_TIMEOUTSTATE,
        Call.writestate 0 L.EC_STATE_PRE_OP,
        Call.statecheck 0 L.EC_STATE_PRE_OP L.EC_TIMEOUTSTATE,
        Call.close ] := by
  simp only [ShutdownECat, call_calls, call_mem, setState_state, List.append_assoc,
    List.cons_append, List.nil_append]

/-- The diagnostic loop leaves the memory as it is. -/
theorem report_foldl_mem (L : SOEM σ) (l : List Nat) (w : World σ) :
    (l.foldl (InitECat.report L) w).mem = w.mem := by
  induction l generalizing w with
  | nil => rfl
  | cons i l ih =>
    rw [List.foldl_cons, ih]
    unfold InitECat.report
    split <;> rfl

theorem report_foldl_calls (L : SOEM σ) (l : List Nat) (w : World σ) :
    (l.foldl (InitECat.report L) w).calls = w.calls := by
  induction l generalizing w with
  | nil => rfl
  | cons i l ih =>
    rw [List.foldl_cons, ih]
    unfold InitECat.report
    split <;> rfl

/-- The entries the diagnostic loop adds for the units of `l`. -/
theorem report_foldl_listing (L : SOEM σ) (l : List Nat) (w : World σ) :
    diagnosticListing (l.foldl (InitECat.report L) w).out
      = diagnosticListing w.out
        ++ (l.filter fun i => decide ((w.mem.ec_slave i).state ≠ L.EC_STATE_OPERATIONAL)).map
            fun i => (i, (w.mem.ec_slave i).state, (w.mem.ec_slave i).ALstatuscode) := by
  induction l generalizing w with
  | nil => simp
  | cons i l ih =>
    rw [List.foldl_cons, ih]
    by_cases h : (w.mem.ec_slave i).state = L.EC_STATE_OPERATIONAL
    · simp [InitECat.report, h]
    · simp [InitECat.report, h, diagnosticListing, List.filterMap_append]

/-- One poll against the scripted double reads the next statusword of the
script, whatever the position read does. -/
theorem script_poll (L0 : SOEM Nat) (P : Nat → Int × Nat) (S : Nat → Nat) (w : World Nat) :
    (Wait.poll (scriptDouble L0 P S) w).1 = S w.mem.priv % 2 ^ 16
    ∧ (Wait.poll (scriptDouble L0 P S) w).2.mem.priv = w.mem.priv + 1 := by
  by_cases hp : (P w.mem.priv).1 = 0
  · simp [Wait.poll, SOEM_Read32, SOEM_Read16, scriptDouble, SLAVEINDEX, hp]
  · simp [Wait.poll, SOEM_Read32, SOEM_Read16, scriptDouble, SLAVEINDEX, hp]

/-- While the script keeps bit 12 set, `fuel` passes do not end the loop. -/
theorem script_Wait_running (L0 : SOEM Nat) (P : Nat → Int × Nat) (S : Nat → Nat) (fuel : Nat)
    (w : World Nat) (hset : ∀ j, j < fuel → (S (w.mem.priv + j)).testBit 12 = true) :
    Wait (scriptDouble L0 P S) fuel w = none := by
  induction fuel generalizing w with
  | zero => rfl
  | succ n ih =>
    obtain ⟨hs, hp⟩ := script_poll L0 P S w
    have h0 : (S w.mem.priv).testBit 12 = true := by simpa using hset 0 (Nat.succ_pos n)
    have hne : ¬ ((Wait.poll (scriptDouble L0 P S) w).1 &&& (1 <<< 12) = 0) := by
      rw [hs, bit12_clear_iff, h0]
      simp
    rw [Wait]
    simp only [if_neg hne]
    apply ih
    intro j hj
    rw [hp, Nat.add_assoc, Nat.add_comm 1 j]
    exact hset (j + 1) (Nat.succ_lt_succ hj)

/-- If reading `k` of the script is the first with bit 12 clear, the loop ends
in pass `k + 1`. -/
theorem script_Wait_returns (L0 : SOEM Nat) (P : Nat → Int × Nat) (S : Nat → Nat) (k : Nat)
    (w : World Nat) (fuel : Nat)
    (hset : ∀ j, j < k → (S (w.mem.priv + j)).testBit 12 = true)
    (hclear : (S (w.mem.priv + k)).testBit 12 = false) (hfuel : k < fuel) :
    ∃ w1, Wait (scriptDouble L0 P S) fuel w = some w1
      ∧ w1.calls = w.calls ++ pollCalls L0.EC_TIMEOUTRXM (k + 1) := by
  induction k generalizing w fuel with
  | zero =>
    obtain ⟨f, rfl⟩ : ∃ f, fuel = f + 1 := ⟨fuel - 1, by omega⟩
    obtain ⟨hs, -⟩ := script_poll L0 P S w
    have hz : (Wait.poll (scriptDouble L0 P S) w).1 &&& (1 <<< 12) = 0 := by
      rw [hs, bit12_clear_iff]
      simpa using hclear
    refine ⟨(Wait.poll (scriptDouble L0 P S) w).2.print Out.Newline, ?_, ?_⟩
    · rw [Wait]
      simp only [if_pos hz]
    · rw [print_calls, poll_calls]
      rfl
  | succ k ih =>
    obtain ⟨f, rfl⟩ : ∃ f, fuel = f + 1 := ⟨fuel - 1, by omega⟩
    obtain ⟨hs, hp⟩ := script_poll L0 P S w
    have h0 : (S w.mem.priv).testBit 12 = true := by simpa using hset 0 (Nat.succ_pos k)
    have hne : ¬ ((Wait.poll (scriptDouble L0 P S) w).1 &&& (1 <<< 12) = 0) := by
      rw [hs, bit12_clear_iff, h0]
      simp
    obtain ⟨w1, hw, hc⟩ := ih (Wait.poll (scriptDouble L0 P S) w).2 f
      (fun j hj => by
        rw [hp, Nat.add_assoc, Nat.add_comm 1 j]
        exact hset (j + 1) (Nat.succ_lt_succ hj))
      (by
        rw [hp, Nat.add_assoc, Nat.add_comm 1 k]
        exact hclear)
      (by omega)
    refine ⟨w1, ?_, ?_⟩
    · rw [Wait]
      simp only [if_neg hne]
      exact hw
    · rw [hc, poll_calls, pollCalls_succ L0.EC_TIMEOUTRXM (k + 1), List.append_assoc]
      rfl

/-- Whenever the loop ends against the scripted double, it ends at the first
reading with bit 12 clear. -/
theorem script_Wait_some (L0 : SOEM Nat) (P : Nat → Int × Nat) (S : Nat → Nat) (fuel : Nat)
    (w w1 : World Nat) (h : Wait (scriptDouble L0 P S) fuel w = some w1) :
    ∃ k, k < fuel ∧ (∀ j, j < k → (S (w.mem.priv + j)).testBit 12 = true)
      ∧ (S (w.mem.priv + k)).testBit 12 = false
      ∧ w1.calls = w.calls ++ pollCalls L0.EC_TIMEOUTRXM (k + 1) := by
  by_cases hall : ∀ j, j < fuel → (S (w.mem.priv + j)).testBit 12 = true
  · rw [script_Wait_running L0 P S fuel w hall] at h
    cases h
  · have hex : ∃ k, k < fuel ∧ (S (w.mem.priv + k)).testBit 12 = false := by
      by_contra hno
      apply hall
      intro j hj
      by_contra hj2
      exact hno ⟨j, hj, by simpa using hj2⟩
    have hk := Nat.find_spec hex
    have hmin : ∀ j, j < Nat.find hex → (S (w.mem.priv + j)).testBit 12 = true := by
      intro j hj
      have := Nat.find_min hex hj
      by_contra hj2
      exact this ⟨Nat.lt_trans hj hk.1, by simpa using hj2⟩
    obtain ⟨w2, hw, hc⟩ := script_Wait_returns L0 P S (Nat.find hex) w fuel hmin hk.2 hk.1
    rw [hw] at h
    cases h
    exact ⟨Nat.find hex, hk.1, hmin, hk.2, hc⟩

/-! ## Lemmas on the memory handed back by the library -/

theorem SOEM_Write8_mem (L : SOEM σ) (Index SubIndex Value : Nat) (w : World σ) :
    (SOEM_Write8 L Index SubIndex Value w).2.mem
      = (L.ec_SDOwrite w.mem 1 Index SubIndex false 1 Value L.EC_TIMEOUTRXM).1 := by
  simp only [SOEM_Write8, SLAVEINDEX]
  split <;> rfl

theorem SOEM_Write16_mem (L : SOEM σ) (Index SubIndex Value : Nat) (w : World σ) :
    (SOEM_Write16 L Index SubIndex Value w).2.mem
      = (L.ec_SDOwrite w.mem 1 Index SubIndex false 2 Value L.EC_TIMEOUTRXM).1 := by
  simp only [SOEM_Write16, SLAVEINDEX]
  split <;> rfl

theorem SOEM_Write32_mem (L : SOEM σ) (Index SubIndex Value : Nat) (w : World σ) :
    (SOEM_Write32 L Index SubIndex Value w).2.mem
      = (L.ec_SDOwrite w.mem 1 Index SubIndex false 4 Value L.EC_TIMEOUTRXM).1 := by
  simp only [SOEM_Write32, SLAVEINDEX]
  split <;> rfl

theorem SOEM_Read8_mem (L : SOEM σ) (Index SubIndex : Nat) (w : World σ) :
    (SOEM_Read8 L Index SubIndex w).2.mem
      = (L.ec_SDOread w.mem 1 Index SubIndex false 1 0 L.EC_TIMEOUTRXM).1 := by
  simp only [SOEM_Read8, SLAVEINDEX]
  split <;> rfl

theorem SOEM_Read16_mem (L : SOEM σ) (Index SubIndex : Nat) (w : World σ) :
    (SOEM_Read16 L Index SubIndex w).2.mem
      = (L.ec_SDOread w.mem 1 Index SubIndex false 2 0 L.EC_TIMEOUTRXM).1 := by
  simp only [SOEM_Read16, SLAVEINDEX]
  split <;> rfl

theorem SOEM_Read32_mem (L : SOEM σ) (Index SubIndex : Nat) (w : World σ) :
    (SOEM_Read32 L Index SubIndex w).2.mem
      = (L.ec_SDOread w.mem 1 Index SubIndex false 4 0 L.EC_TIMEOUTRXM).1 := by
  simp only [SOEM_Read32, SLAVEINDEX]
  split <;> rfl

theorem replay_append (L : SOEM σ) (a b : List Call) (m : Mem σ) :
    replay L (a ++ b) m = replay L b (replay L a m) := by
  simp only [replay, List.foldl_append]

/-- The memory after the statements of `GotoPos` that precede `Wait`: the
eleven writes made on the library, each on the memory the previous one left. -/
theorem sequence_mem (L : SOEM σ) (pos : Int) (w : World σ) :
    (GotoPos.sequence L pos w).mem
      = replay L (motionWrites L.EC_TIMEOUTRXM
          (toUInt 32 (toSInt 32 (Int.tdiv REVOLUTION_PULSES 360 * pos)))) w.mem := by
  simp only [GotoPos.sequence, SOEM_Write8_mem, SOEM_Write16_mem, SOEM_Write32_mem, print_mem,
    motionWrites, replay, List.foldl_cons, List.foldl_nil, Call.run]

/-- The memory after one pass of the monitor loop. -/
theorem poll_mem (L : SOEM σ) (w : World σ) :
    (Wait.poll L w).2.mem = replay L (pollCalls L.EC_TIMEOUTRXM 1) w.mem := by
  simp only [Wait.poll, SOEM_Read32_mem, SOEM_Read16_mem, print_mem, pollCalls, replay,
    List.foldl_cons, List.foldl_nil, Call.run]

/-- Whenever `Wait` returns it has made a whole number of polls on the library,
at least one and at most `fuel`, and no other call. -/
theorem Wait_trace (L : SOEM σ) (fuel : Nat) (w w1 : World σ) (h : Wait L fuel w = some w1) :
    ∃ k, k < fuel ∧ w1.calls = w.calls ++ pollCalls L.EC_TIMEOUTRXM (k + 1)
      ∧ w1.mem = replay L (pollCalls L.EC_TIMEOUTRXM (k + 1)) w.mem := by
  induction fuel generalizing w with
  | zero => simp [Wait] at h
  | succ n ih =>
    unfold Wait at h
    simp only at h
    split at h
    · refine ⟨0, Nat.succ_pos n, ?_, ?_⟩
      · cases h
        rw [print_calls, poll_calls]
      · cases h
        rw [print_mem, poll_mem]
    · obtain ⟨k, hk, hc, hm⟩ := ih _ h
      refine ⟨k + 1, Nat.succ_lt_succ hk, ?_, ?_⟩
      · rw [hc, poll_calls, pollCalls_succ L.EC_TIMEOUTRXM (k + 1), List.append_assoc]
      · rw [hm, poll_mem, pollCalls_succ L.EC_TIMEOUTRXM (k + 1), replay_append]

/-- The calls of a whole motion command that returns, as recorded and as made
on the library. -/
theorem GotoPos_trace (L : SOEM σ) (fuel : Nat) (pos : Int) (w w1 : World σ)
    (h : GotoPos L fuel pos w = some w1) :
    ∃ k, w1.calls = w.calls
        ++ (motionWrites L.EC_TIMEOUTRXM (toUInt 32 (Int.tdiv REVOLUTION_PULSES 360 * pos))
            ++ pollCalls L.EC_TIMEOUTRXM (k + 1))
      ∧ w1.mem = replay L
          (motionWrites L.EC_TIMEOUTRXM (toUInt 32 (Int.tdiv REVOLUTION_PULSES 360 * pos))
            ++ pollCalls L.EC_TIMEOUTRXM (k + 1)) w.mem := by
  obtain ⟨k, -, hk, hm⟩ := Wait_trace L fuel _ w1 h
  rw [sequence_calls, toUInt_toSInt, List.append_assoc] at hk
  rw [sequence_mem, toUInt_toSInt, ← replay_append] at hm
  exact ⟨k, hk, hm⟩

/-- The memory after teardown: the five calls made on the library. -/
theorem shutdown_mem (L : SOEM σ) (w : World σ) :
    (ShutdownECat L w).mem = replay L
      [ Call.writestate 0 L.EC_STATE_SAFE_OP,
        Call.statecheck 0 L.EC_STATE_SAFE_OP L.EC_TIMEOUTSTATE,
        Call.writestate 0 L.EC_STATE_PRE_OP,
        Call.statecheck 0 L.EC_STATE_PRE_OP L.EC_TIMEOUTSTATE,
        Call.close ] w.mem := by
  simp only [ShutdownECat, call_mem, replay, List.foldl_cons, List.foldl_nil, Call.run]

/-! ## Register access layer: one transport request per operation -/

/-- C7: each of the six register operations makes exactly one transport
request, to slave 1, with the given index and sub-index, complete access off,
a size equal to its width in bytes and the mailbox timeout `EC_TIMEOUTRXM`:
the memory it leaves is the memory that one request handed back (so the
request is made, on the memory at entry, and no second request follows it), and
the record shows that request and nothing else.  A write returns `false`
exactly when the work counter of that request is 0; a read returns 0 when the
work counter is 0 and otherwise the content of its N-bit buffer as the request
left it. -/
theorem register_access_one_shot (L : SOEM σ) (Index SubIndex Value : Nat) (w : World σ) :
    ((SOEM_Write8 L Index SubIndex Value w).2.mem
        = (L.ec_SDOwrite w.mem 1 Index SubIndex false 1 Value L.EC_TIMEOUTRXM).1
      ∧ (SOEM_Write8 L Index SubIndex Value w).2.calls
        = w.calls ++ [Call.SDOwrite 1 Index SubIndex false 1 Value L.EC_TIMEOUTRXM]
      ∧ ((SOEM_Write8 L Index SubIndex Value w).1 = false
          ↔ (L.ec_SDOwrite w.mem 1 Index SubIndex false 1 Value L.EC_TIMEOUTRXM).2 = 0))
    ∧ ((SOEM_Write16 L Index SubIndex Value w).2.mem
        = (L.ec_SDOwrite w.mem 1 Index SubIndex false 2 Value L.EC_TIMEOUTRXM).1
      ∧ (SOEM_Write16 L Index SubIndex Value w).2.calls
        = w.calls ++ [Call.SDOwrite 1 Index SubIndex false 2 Value L.EC_TIMEOUTRXM]
      ∧ ((SOEM_Write16 L Index SubIndex Value w).1 = false
          ↔ (L.ec_SDOwrite w.mem 1 Index SubIndex false 2 Value L.EC_TIMEOUTRXM).2 = 0))
    ∧ ((SOEM_Write32 L Index SubIndex Value w).2.mem
        = (L.ec_SDOwrite w.mem 1 Index SubIndex false 4 Value L.EC_TIMEOUTRXM).1
      ∧ (SOEM_Write32 L Index SubIndex Value w).2.calls
        = w.calls ++ [Call.SDOwrite 1 Index SubIndex false 4 Value L.EC_TIMEOUTRXM]
      ∧ ((SOEM_Write32 L Index SubIndex Value w).1 = false
          ↔ (L.ec_SDOwrite w.mem 1 Index SubIndex false 4 Value L.EC_TIMEOUTRXM).2 = 0))
    ∧ ((SOEM_Read8 L Index SubIndex w).2.mem
        = (L.ec_SDOread w.mem 1 Index SubIndex false 1 0 L.EC_TIMEOUTRXM).1
      ∧ (SOEM_Read8 L Index SubIndex w).2.calls
        = w.calls ++ [Call.SDOread 1 Index SubIndex false 1 L.EC_TIMEOUTRXM]
      ∧ (SOEM_Read8 L Index SubIndex w).1
          = if (L.ec_SDOread w.mem 1 Index SubIndex false 1 0 L.EC_TIMEOUTRXM).2.1 = 0 then 0
            else (L.ec_SDOread w.mem 1 Index SubIndex false 1 0 L.EC_TIMEOUTRXM).2.2 % 2 ^ 8)
    ∧ ((SOEM_Read16 L Index SubIndex w).2.mem
        = (L.ec_SDOread w.mem 1 Index SubIndex false 2 0 L.EC_TIMEOUTRXM).1
      ∧ (SOEM_Read16 L Index SubIndex w).2.calls
        = w.calls ++ [Call.SDOread 1 Index SubIndex false 2 L.EC_TIMEOUTRXM]
      ∧ (SOEM_Read16 L Index SubIndex w).1
          = if (L.ec_SDOread w.mem 1 Index SubIndex false 2 0 L.EC_TIMEOUTRXM).2.1 = 0 then 0
            else (L.ec_SDOread w.mem 1 Index SubIndex false 2 0 L.EC_TIMEOUTRXM).2.2 % 2 ^ 16)
    ∧ ((SOEM_Read32 L Index SubIndex w).2.mem
        = (L.ec_SDOread w.mem 1 Index SubIndex false 4 0 L.EC_TIMEOUTRXM).1
      ∧ (SOEM_Read32 L Index SubIndex w).2.calls
        = w.calls ++ [Call.SDOread 1 Index SubIndex false 4 L.EC_TIMEOUTRXM]
      ∧ (SOEM_Read32 L Index SubIndex w).1
          = if (L.ec_SDOread w.mem 1 Index SubIndex false 4 0 L.EC_TIMEOUTRXM).2.1 = 0 then 0
            else (L.ec_SDOread w.mem 1 Index SubIndex false 4 0 L.EC_TIMEOUTRXM).2.2 % 2 ^ 32) := by
  refine ⟨⟨SOEM_Write8_mem L Index SubIndex Value w, SOEM_Write8_calls L Index SubIndex Value w, ?_⟩,
    ⟨SOEM_Write16_mem L Index SubIndex Value w, SOEM_Write16_calls L Index SubIndex Value w, ?_⟩,
    ⟨SOEM_Write32_mem L Index SubIndex Value w, SOEM_Write32_calls L Index SubIndex Value w, ?_⟩,
    ⟨SOEM_Read8_mem L Index SubIndex w, SOEM_Read8_calls L Index SubIndex w, ?_⟩,
    ⟨SOEM_Read16_mem L Index SubIndex w, SOEM_Read16_calls L Index SubIndex w, ?_⟩,
    ⟨SOEM_Read32_mem L Index SubIndex w, SOEM_Read32_calls L Index SubIndex w, ?_⟩⟩
  · simp only [SOEM_Write8, SLAVEINDEX]
    split <;> simp_all
  · simp only [SOEM_Write16, SLAVEINDEX]
    split <;> simp_all
  · simp only [SOEM_Write32, SLAVEINDEX]
    split <;> simp_all
  · simp only [SOEM_Read8, SLAVEINDEX]
    split <;> simp_all
  · simp only [SOEM_Read16, SLAVEINDEX]
    split <;> simp_all
  · simp only [SOEM_Read32, SLAVEINDEX]
    split <;> simp_all

/-- C7 on the recording double, with every request failing: after each of the
six operations the library has received exactly one request, the one the
operation is to make; the writes return `false` and the reads 0. -/
theorem register_access_one_shot_witness :
    ((SOEM_Write8 (recordingBus fun _ => 0) 0x6060 0 1
          (World.start [] 1 (fun _ => 8) (fun _ => 0))).2.mem.priv
        = [Call.SDOwrite 1 0x6060 0 false 1 1 700000]
      ∧ (SOEM_Write8 (recordingBus fun _ => 0) 0x6060 0 1
          (World.start [] 1 (fun _ => 8) (fun _ => 0))).1 = false)
    ∧ ((SOEM_Write16 (recordingBus fun _ => 0) 0x6060 0 1
          (World.start [] 1 (fun _ => 8) (fun _ => 0))).2.mem.priv
        = [Call.SDOwrite 1 0x6060 0 false 2 1 700000]
      ∧ (SOEM_Write16 (recordingBus fun _ => 0) 0x6060 0 1
          (World.start [] 1 (fun _ => 8) (fun _ => 0))).1 = false)
    ∧ ((SOEM_Write32 (recordingBus fun _ => 0) 0x6060 0 1
          (World.start [] 1 (fun _ => 8) (fun _ => 0))).2.mem.priv
        = [Call.SDOwrite 1 0x6060 0 false 4 1 700000]
      ∧ (SOEM_Write32 (recordingBus fun _ => 0) 0x6060 0 1
          (World.start [] 1 (fun _ => 8) (fun _ => 0))).1 = false)
    ∧ ((SOEM_Read8 (recordingBus fun _ => 0) 0x6060 0
          (World.start [] 1 (fun _ => 8) (fun _ => 0))).2.mem.priv
        = [Call.SDOread 1 0x6060 0 false 1 700000]
      ∧ (SOEM_Read8 (recordingBus fun _ => 0) 0x6060 0
          (World.start [] 1 (fun _ => 8) (fun _ => 0))).1 = 0)
    ∧ ((SOEM_Read16 (recordingBus fun _ => 0) 0x6060 0
          (World.start [] 1 (fun _ => 8) (fun _ => 0))).2.mem.priv
        = [Call.SDOread 1 0x6060 0 false 2 700000]
      ∧ (SOEM_Read16 (recordingBus fun _ => 0) 0x6060 0
          (World.start [] 1 (fun _ => 8) (fun _ => 0))).1 = 0)
    ∧ ((SOEM_Read32 (recordingBus fun _ => 0) 0x6060 0
          (World.start [] 1 (fun _ => 8) (fun _ => 0))).2.mem.priv
        = [Call.SDOread 1 0x6060 0 false 4 700000]
      ∧ (SOEM_Read32 (recordingBus fun _ => 0) 0x6060 0
          (World.start [] 1 (fun _ => 8) (fun _ => 0))).1 = 0) :=
  have h := register_access_one_shot (recordingBus fun _ => 0) 0x6060 0 1
    (World.start [] 1 (fun _ => 8) (fun _ => 0))
  ⟨⟨(congrArg Mem.priv h.1.1).trans (by decide), (h.1.2.2).mpr (by decide)⟩,
   ⟨(congrArg Mem.priv h.2.1.1).trans (by decide), (h.2.1.2.2).mpr (by decide)⟩,
   ⟨(congrArg Mem.priv h.2.2.1.1).trans (by decide), (h.2.2.1.2.2).mpr (by decide)⟩,
   ⟨(congrArg Mem.priv h.2.2.2.1.1).trans (by decide), h.2.2.2.1.2.2.trans (by decide)⟩,
   ⟨(congrArg Mem.priv h.2.2.2.2.1.1).trans (by decide), h.2.2.2.2.1.2.2.trans (by decide)⟩,
   ⟨(congrArg Mem.priv h.2.2.2.2.2.1).trans (by decide), h.2.2.2.2.2.2.2.trans (by decide)⟩⟩

/-! ## Teardown -/

/-- C5: whatever the library does (in particular whatever the two state waits
report or leave in memory), `ShutdownECat` makes exactly five library calls, in
this order, each on the memory the previous one handed back: request
SafeOperational for slave 0 (all units), wait for SafeOperational with
`EC_TIMEOUTSTATE`, request PreOperational for slave 0, wait for PreOperational
with the same timeout, close.  The memory it leaves is the one `ec_close`
hands back, and the record shows the same five calls. -/
theorem ShutdownECat_calls (L : SOEM σ) (w : World σ) :
    (ShutdownECat L w).mem
        = L.ec_close
            (L.ec_statecheck
              (L.ec_writestate
                ((L.ec_statecheck
                    (L.ec_writestate (w.mem.setState 0 L.EC_STATE_SAFE_OP) 0).1
                    0 L.EC_STATE_SAFE_OP L.EC_TIMEOUTSTATE).1.setState 0 L.EC_STATE_PRE_OP)
                0).1
              0 L.EC_STATE_PRE_OP L.EC_TIMEOUTSTATE).1
    ∧ (ShutdownECat L w).mem = replay L
        [ Call.writestate 0 L.EC_STATE_SAFE_OP,
          Call.statecheck 0 L.EC_STATE_SAFE_OP L.EC_TIMEOUTSTATE,
          Call.writestate 0 L.EC_STATE_PRE_OP,
          Call.statecheck 0 L.EC_STATE_PRE_OP L.EC_TIMEOUTSTATE,
          Call.close ] w.mem
    ∧ (ShutdownECat L w).calls = w.calls ++
        [ Call.writestate 0 L.EC_STATE_SAFE_OP,
          Call.statecheck 0 L.EC_STATE_SAFE_OP L.EC_TIMEOUTSTATE,
          Call.writestate 0 L.EC_STATE_PRE_OP,
          Call.statecheck 0 L.EC_STATE_PRE_OP L.EC_TIMEOUTSTATE,
          Call.close ] :=
  ⟨rfl, shutdown_mem L w, shutdown_calls L w⟩

/-- C5 on the recording double with both waits timing out (every call returns
0): the library has received exactly the five teardown calls, close last. -/
theorem ShutdownECat_calls_witness :
    (ShutdownECat (recordingBus fun _ => 0) (World.start [] 1 (fun _ => 8) (fun _ => 0))).mem.priv
      = [ Call.writestate 0 4, Call.statecheck 0 4 2000000,
          Call.writestate 0 2, Call.statecheck 0 2 2000000, Call.close ] :=
  (congrArg Mem.priv
    (ShutdownECat_calls (recordingBus fun _ => 0)
      (World.start [] 1 (fun _ => 8) (fun _ => 0))).2.1).trans (by decide)

/-! ## Motion sequence -/

/-- C1: for every angle and every library behaviour (so for every pattern of
acknowledged and failed writes) the statements of `GotoPos` before `Wait` make
exactly the eleven register writes of `motionWrites` on the library, in that
order, each on the memory the previous one handed back, and nothing else: the
memory they leave is the replay of those writes and the record shows the same
eleven.  `GotoPos` then runs `Wait`, which adds register reads in whole polls
only. -/
theorem GotoPos_writes (L : SOEM σ) (pos : Int) (w : World σ) :
    (GotoPos.sequence L pos w).calls
        = w.calls ++
          [ Call.SDOwrite 1 0x6060 0 false 1 1 L.EC_TIMEOUTRXM,
            Call.SDOwrite 1 0x6040 0 false 2 0x0000 L.EC_TIMEOUTRXM,
            Call.SDOwrite 1 0x6040 0 false 2 0x0006 L.EC_TIMEOUTRXM,
            Call.SDOwrite 1 0x6040 0 false 2 0x0007 L.EC_TIMEOUTRXM,
            Call.SDOwrite 1 0x6040 0 false 2 0x000F L.EC_TIMEOUTRXM,
            Call.SDOwrite 1 0x6083 0 false 4 0x96 L.EC_TIMEOUTRXM,
            Call.SDOwrite 1 0x6084 0 false 4 0x96 L.EC_TIMEOUTRXM,
            Call.SDOwrite 1 0x6081 0 false 4 0x0200 L.EC_TIMEOUTRXM,
            Call.SDOwrite 1 0x607A 0 false 4
              (toUInt 32 (toSInt 32 (Int.tdiv REVOLUTION_PULSES 360 * pos))) L.EC_TIMEOUTRXM,
            Call.SDOwrite 1 0x6040 0 false 2 0x000F L.EC_TIMEOUTRXM,
            Call.SDOwrite 1 0x6040 0 false 2 0x001F L.EC_TIMEOUTRXM ]
    ∧ (GotoPos.sequence L pos w).mem
        = replay L
          [ Call.SDOwrite 1 0x6060 0 false 1 1 L.EC_TIMEOUTRXM,
            Call.SDOwrite 1 0x6040 0 false 2 0x0000 L.EC_TIMEOUTRXM,
            Call.SDOwrite 1 0x6040 0 false 2 0x0006 L.EC_TIMEOUTRXM,
            Call.SDOwrite 1 0x6040 0 false 2 0x0007 L.EC_TIMEOUTRXM,
            Call.SDOwrite 1 0x6040 0 false 2 0x000F L.EC_TIMEOUTRXM,
            Call.SDOwrite 1 0x6083 0 false 4 0x96 L.EC_TIMEOUTRXM,
            Call.SDOwrite 1 0x6084 0 false 4 0x96 L.EC_TIMEOUTRXM,
            Call.SDOwrite 1 0x6081 0 false 4 0x0200 L.EC_TIMEOUTRXM,
            Call.SDOwrite 1 0x607A 0 false 4
              (toUInt 32 (toSInt 32 (Int.tdiv REVOLUTION_PULSES 360 * pos))) L.EC_TIMEOUTRXM,
            Call.SDOwrite 1 0x6040 0 false 2 0x000F L.EC_TIMEOUTRXM,
            Call.SDOwrite 1 0x6040 0 false 2 0x001F L.EC_TIMEOUTRXM ] w.mem
    ∧ (∀ fuel, GotoPos L fuel pos w = Wait L fuel (GotoPos.sequence L pos w))
    ∧ (∀ fuel w1, GotoPos L fuel pos w = some w1 →
        ∃ k, w1.calls = (GotoPos.sequence L pos w).calls ++ pollCalls L.EC_TIMEOUTRXM (k + 1)
          ∧ w1.mem = replay L (pollCalls L.EC_TIMEOUTRXM (k + 1))
              (GotoPos.sequence L pos w).mem) := by
  refine ⟨sequence_calls L pos w, sequence_mem L pos w, fun _ => rfl, fun fuel w1 h => ?_⟩
  obtain ⟨k, -, hk, hm⟩ := Wait_trace L fuel _ w1 h
  exact ⟨k, hk, hm⟩

/-- C1 on the recording double with every other call failing, the first
included: `SOEM_Write8` reports failure for the mode write, and the library
has received exactly the eleven writes for 90 degrees, in order. -/
theorem GotoPos_writes_witness :
    (SOEM_Write8 (recordingBus fun n => if n % 2 = 0 then 0 else 1) 0x6060 0x00 1
        ((World.start [] 1 (fun _ => 8) (fun _ => 0)).print (Out.GOTO 90))).1 = false
    ∧ (GotoPos.sequence (recordingBus fun n => if n % 2 = 0 then 0 else 1) 90
        (World.start [] 1 (fun _ => 8) (fun _ => 0))).mem.priv
      = [ Call.SDOwrite 1 0x6060 0 false 1 1 700000,
          Call.SDOwrite 1 0x6040 0 false 2 0x0000 700000,
          Call.SDOwrite 1 0x6040 0 false 2 0x0006 700000,
          Call.SDOwrite 1 0x6040 0 false 2 0x0007 700000,
          Call.SDOwrite 1 0x6040 0 false 2 0x000F 700000,
          Call.SDOwrite 1 0x6083 0 false 4 0x96 700000,
          Call.SDOwrite 1 0x6084 0 false 4 0x96 700000,
          Call.SDOwrite 1 0x6081 0 false 4 0x0200 700000,
          Call.SDOwrite 1 0x607A 0 false 4 26476470 700000,
          Call.SDOwrite 1 0x6040 0 false 2 0x000F 700000,
          Call.SDOwrite 1 0x6040 0 false 2 0x001F 700000 ] :=
  ⟨by decide,
   (congrArg Mem.priv
    (GotoPos_writes (recordingBus fun n => if n % 2 = 0 then 0 else 1) 90
      (World.start [] 1 (fun _ => 8) (fun _ => 0))).2.1).trans (by decide)⟩

/-! ## Target position scaling -/

/-- C2, as stated, fails: 20000 is a C `int`, and `GotoPos(20000)` writes the
word 1588692704 to 0x607A, which is not (0x6500000 / 360) * 20000 = 5883660000
whether the word is read as signed or as unsigned. -/
theorem target_scaling_fails_at_20000 :
    (-(2 : Int) ^ 31 ≤ 20000 ∧ (20000 : Int) < 2 ^ 31)
    ∧ writesTo 0x607A
        (GotoPos.sequence (quietBus Unit) 20000 (World.start () 1 (fun _ => 8) (fun _ => 0))).calls
        = [1588692704]
    ∧ toSInt 32 1588692704 ≠ Int.tdiv 0x6500000 360 * 20000
    ∧ (1588692704 : Int) ≠ Int.tdiv 0x6500000 360 * 20000 := by
  decide

/-- C2, amended: for every angle `D` with -7299 ≤ D ≤ 7299 (the angles whose
pulse count fits a signed 32-bit integer) `GotoPos(D)` writes to 0x607A exactly
one word, the two's-complement encoding of (0x6500000 / 360) * D, where the
quotient is the truncated 294183; for D = 90 the word is 26476470. -/
theorem target_scaling (L : SOEM σ) (w : World σ) (D : Int) (hlo : -7299 ≤ D) (hhi : D ≤ 7299) :
    writesTo 0x607A (GotoPos.sequence L D w).calls
        = writesTo 0x607A w.calls ++ [toUInt 32 (Int.tdiv 0x6500000 360 * D)]
    ∧ toSInt 32 (toUInt 32 (Int.tdiv 0x6500000 360 * D)) = Int.tdiv 0x6500000 360 * D
    ∧ Int.tdiv 0x6500000 360 = 294183
    ∧ writesTo 0x607A (GotoPos.sequence L 90 w).calls = writesTo 0x607A w.calls ++ [26476470] := by
  have hq : Int.tdiv 0x6500000 360 = 294183 := by decide
  refine ⟨sequence_target L D w, ?_, hq, ?_⟩
  · rw [hq]
    apply toSInt_toUInt <;> omega
  · rw [sequence_target]
    have h90 : toUInt 32 (Int.tdiv REVOLUTION_PULSES 360 * 90) = 26476470 := by decide
    rw [h90]

/-- C2, amended, at the angles -45 and 90 on the quiet double. -/
theorem target_scaling_witness :
    writesTo 0x607A
        (GotoPos.sequence (quietBus Unit) (-45) (World.start () 1 (fun _ => 8) (fun _ => 0))).calls
        = writesTo 0x607A (World.start () 1 (fun _ => 8) (fun _ => 0)).calls
            ++ [toUInt 32 (Int.tdiv 0x6500000 360 * (-45))]
    ∧ toSInt 32 (toUInt 32 (Int.tdiv 0x6500000 360 * (-45))) = Int.tdiv 0x6500000 360 * (-45)
    ∧ Int.tdiv 0x6500000 360 = 294183
    ∧ writesTo 0x607A
        (GotoPos.sequence (quietBus Unit) 90 (World.start () 1 (fun _ => 8) (fun _ => 0))).calls
        = writesTo 0x607A (World.start () 1 (fun _ => 8) (fun _ => 0)).calls ++ [26476470] :=
  target_scaling (quietBus Unit) (World.start () 1 (fun _ => 8) (fun _ => 0)) (-45)
    (by decide) (by decide)

/-! ## Failed statusword read -/

/-- C10: if the transport request for 0x6041 made in a pass of the monitor
loop comes back with work counter 0, then `SOEM_Read16` yields 0, bit 12 of
that value is clear and `Wait` returns at the end of that very pass, having
made the two reads of the pass and nothing else.  Nothing is assumed about the
data the request left in the buffer, nor about the read of 0x6064. -/
theorem Wait_returns_on_failed_status_read (L : SOEM σ) (w : World σ) (fuel : Nat)
    (hfail : (L.ec_SDOread (SOEM_Read32 L 0x6064 0x00 w).2.mem 1 0x6041 0x00 false 2 0
                L.EC_TIMEOUTRXM).2.1 = 0) :
    (SOEM_Read16 L 0x6041 0x00 (SOEM_Read32 L 0x6064 0x00 w).2).1 = 0
    ∧ (0 &&& (1 <<< 12) = 0)
    ∧ Wait L (fuel + 1) w = some ((Wait.poll L w).2.print Out.Newline)
    ∧ ((Wait.poll L w).2.print Out.Newline).calls
        = w.calls ++ [Call.SDOread 1 0x6064 0 false 4 L.EC_TIMEOUTRXM,
                      Call.SDOread 1 0x6041 0 false 2 L.EC_TIMEOUTRXM] := by
  have h16 : (SOEM_Read16 L 0x6041 0x00 (SOEM_Read32 L 0x6064 0x00 w).2).1 = 0 := by
    simp only [SOEM_Read16, SLAVEINDEX]
    rw [if_pos hfail]
  have hst : (Wait.poll L w).1 = 0 := h16
  refine ⟨h16, by decide, ?_, ?_⟩
  · rw [Wait]
    simp only [hst]
    rfl
  · rw [print_calls, poll_calls]
    rfl

/-- C10 on a double whose reads all fail while the buffer comes back with bit
12 set: `Wait` returns in its first pass. -/
theorem Wait_returns_on_failed_status_read_witness :
    ((deafBus.ec_SDOread (SOEM_Read32 deafBus 0x6064 0x00
        (World.start () 1 (fun _ => 8) (fun _ => 0))).2.mem 1 0x6041 0x00 false 2 0
        deafBus.EC_TIMEOUTRXM).2.2.testBit 12 = true)
    ∧ (SOEM_Read16 deafBus 0x6041 0x00 (SOEM_Read32 deafBus 0x6064 0x00
        (World.start () 1 (fun _ => 8) (fun _ => 0))).2).1 = 0
    ∧ (0 &&& (1 <<< 12) = 0)
    ∧ Wait deafBus (0 + 1) (World.start () 1 (fun _ => 8) (fun _ => 0))
        = some ((Wait.poll deafBus (World.start () 1 (fun _ => 8) (fun _ => 0))).2.print
            Out.Newline)
    ∧ ((Wait.poll deafBus (World.start () 1 (fun _ => 8) (fun _ => 0))).2.print
          Out.Newline).calls
        = (World.start () 1 (fun _ => 8) (fun _ => 0)).calls
            ++ [Call.SDOread 1 0x6064 0 false 4 deafBus.EC_TIMEOUTRXM,
                Call.SDOread 1 0x6041 0 false 2 deafBus.EC_TIMEOUTRXM] :=
  ⟨by decide,
   Wait_returns_on_failed_status_read deafBus (World.start () 1 (fun _ => 8) (fun _ => 0)) 0
     (by decide)⟩

/-! ## Write then read against an echoing double -/

/-- C6: against the echoing double, for each width N in 8, 16, 32, every
address and every N-bit value V, `SOEM_WriteN` returns `true` and the
`SOEM_ReadN` of the same address that follows returns V. -/
theorem write_read_round_trip (L0 : SOEM (Nat → Nat → Nat)) (Index SubIndex : Nat)
    (w : World (Nat → Nat → Nat)) (V8 V16 V32 : Nat)
    (h8 : V8 < 2 ^ 8) (h16 : V16 < 2 ^ 16) (h32 : V32 < 2 ^ 32) :
    ((SOEM_Write8 (echoDouble L0) Index SubIndex V8 w).1 = true
      ∧ (SOEM_Read8 (echoDouble L0) Index SubIndex
          (SOEM_Write8 (echoDouble L0) Index SubIndex V8 w).2).1 = V8)
    ∧ ((SOEM_Write16 (echoDouble L0) Index SubIndex V16 w).1 = true
      ∧ (SOEM_Read16 (echoDouble L0) Index SubIndex
          (SOEM_Write16 (echoDouble L0) Index SubIndex V16 w).2).1 = V16)
    ∧ ((SOEM_Write32 (echoDouble L0) Index SubIndex V32 w).1 = true
      ∧ (SOEM_Read32 (echoDouble L0) Index SubIndex
          (SOEM_Write32 (echoDouble L0) Index SubIndex V32 w).2).1 = V32) := by
  refine ⟨⟨?_, ?_⟩, ⟨?_, ?_⟩, ⟨?_, ?_⟩⟩
  · simp [SOEM_Write8, echoDouble]
  · simp [SOEM_Write8, SOEM_Read8, echoDouble]
    omega
  · simp [SOEM_Write16, echoDouble]
  · simp [SOEM_Write16, SOEM_Read16, echoDouble]
    omega
  · simp [SOEM_Write32, echoDouble]
  · simp [SOEM_Write32, SOEM_Read32, echoDouble]
    omega

/-- C6 at the values 0xA5, 0xBEEF and 0xFFFFFFFF written to 0x6060:00. -/
theorem write_read_round_trip_witness :
    ((SOEM_Write8 (echoDouble (quietBus _)) 0x6060 0 0xA5 (World.start (fun _ _ => 0) 1
        (fun _ => 8) (fun _ => 0))).1 = true
      ∧ (SOEM_Read8 (echoDouble (quietBus _)) 0x6060 0
          (SOEM_Write8 (echoDouble (quietBus _)) 0x6060 0 0xA5 (World.start (fun _ _ => 0) 1
            (fun _ => 8) (fun _ => 0))).2).1 = 0xA5)
    ∧ ((SOEM_Write16 (echoDouble (quietBus _)) 0x6060 0 0xBEEF (World.start (fun _ _ => 0) 1
        (fun _ => 8) (fun _ => 0))).1 = true
      ∧ (SOEM_Read16 (echoDouble (quietBus _)) 0x6060 0
          (SOEM_Write16 (echoDouble (quietBus _)) 0x6060 0 0xBEEF (World.start (fun _ _ => 0) 1
            (fun _ => 8) (fun _ => 0))).2).1 = 0xBEEF)
    ∧ ((SOEM_Write32 (echoDouble (quietBus _)) 0x6060 0 0xFFFFFFFF (World.start (fun _ _ => 0) 1
        (fun _ => 8) (fun _ => 0))).1 = true
      ∧ (SOEM_Read32 (echoDouble (quietBus _)) 0x6060 0
          (SOEM_Write32 (echoDouble (quietBus _)) 0x6060 0 0xFFFFFFFF (World.start (fun _ _ => 0) 1
            (fun _ => 8) (fun _ => 0))).2).1 = 0xFFFFFFFF) :=
  write_read_round_trip (quietBus _) 0x6060 0 (World.start (fun _ _ => 0) 1 (fun _ => 8)
    (fun _ => 0)) 0xA5 0xBEEF 0xFFFFFFFF (by decide) (by decide) (by decide)

/-! ## Bring-up -/

/-- C4, as stated, fails: on a bus whose Operational wait reports Operational
in `ec_slave[0]` and leaves the record of unit 1 at SafeOperational (4),
`InitECat` returns `true` with one unit that is not at Operational (8). -/
theorem InitECat_true_with_unit_not_operational :
    (InitECat (quietBus Unit) (World.start () 1 (fun _ => 4) (fun _ => 0x1B))).1 = true
    ∧ (InitECat (quietBus Unit) (World.start () 1 (fun _ => 4) (fun _ => 0x1B))).2.mem.ec_slavecount = 1
    ∧ ((InitECat (quietBus Unit) (World.start () 1 (fun _ => 4) (fun _ => 0x1B))).2.mem.ec_slave 1).state = 4
    ∧ (quietBus Unit).EC_STATE_OPERATIONAL = 8 := by
  decide

/-- C4, amended: `InitECat` returns `true` exactly when `ec_init` returned
non-zero, `ec_config_init` returned a positive slave count and the collective
record `ec_slave[0]` reads Operational in the memory the Operational wait
handed back.  The memories `m1` to `m9` are the successive steps of the
bring-up, each the result of one library call on the previous one (the program
storing Operational in `ec_slave[0].state` after the SafeOperational wait).
When `InitECat` returns `true` the memory it leaves is `m9`, that record reads
Operational, nothing was printed, and the last library call was the
Operational wait for slave 0.  The records of the units themselves are not
consulted. -/
theorem InitECat_true_iff (L : SOEM σ) (w : World σ) (m1 m2 m3 m4 m5 m6 m7 m8 m9 : Mem σ)
    (h1 : m1 = L.wiznet_hw_config w.mem 8 1 1000000)
    (h2 : m2 = (L.ec_init m1 "wiznet").1)
    (h3 : m3 = (L.ec_config_init m2 false).1)
    (h4 : m4 = (L.ec_config_map m3).1)
    (h5 : m5 = (L.ec_statecheck m4 0 L.EC_STATE_SAFE_OP (L.EC_TIMEOUTSTATE * 4)).1)
    (h6 : m6 = (L.ec_send_processdata (m5.setState 0 L.EC_STATE_OPERATIONAL)).1)
    (h7 : m7 = (L.ec_receive_processdata m6 L.EC_TIMEOUTRET).1)
    (h8 : m8 = (L.ec_writestate m7 0).1)
    (h9 : m9 = (L.ec_statecheck m8 0 L.EC_STATE_OPERATIONAL L.EC_TIMEOUTSTATE).1) :
    ((InitECat L w).1 = true ↔
        (L.ec_init m1 "wiznet").2 ≠ 0
        ∧ (L.ec_config_init m2 false).2 > 0
        ∧ (m9.ec_slave 0).state = L.EC_STATE_OPERATIONAL)
    ∧ ((InitECat L w).1 = true →
        (InitECat L w).2.mem = m9
        ∧ ((InitECat L w).2.mem.ec_slave 0).state = L.EC_STATE_OPERATIONAL
        ∧ (InitECat L w).2.out = w.out
        ∧ (InitECat L w).2.calls = w.calls ++
            [ Call.wiznet_hw_config 8 1 1000000,
              Call.init "wiznet",
              Call.config_init false,
              Call.config_map,
              Call.statecheck 0 L.EC_STATE_SAFE_OP (L.EC_TIMEOUTSTATE * 4),
              Call.send_processdata,
              Call.receive_processdata L.EC_TIMEOUTRET,
              Call.writestate 0 (m7.ec_slave 0).state,
              Call.statecheck 0 L.EC_STATE_OPERATIONAL L.EC_TIMEOUTSTATE ]) := by
  subst h1 h2 h3 h4 h5 h6 h7 h8 h9
  have e1 : (InitECat.connect L w).1
      = (L.ec_init (L.wiznet_hw_config w.mem 8 1 1000000) "wiznet").2 := rfl
  have e2 : (InitECat.configure L (InitECat.connect L w).2).1
      = (L.ec_config_init (L.ec_init (L.wiznet_hw_config w.mem 8 1 1000000) "wiznet").1
          false).2 := rfl
  have e3 : (InitECat.bringUp L (InitECat.configure L (InitECat.connect L w).2).2).mem
      = (L.ec_statecheck
          (L.ec_writestate
            (L.ec_receive_processdata
              (L.ec_send_processdata
                ((L.ec_statecheck
                    (L.ec_config_map
                      (L.ec_config_init
                        (L.ec_init (L.wiznet_hw_config w.mem 8 1 1000000) "wiznet").1
                        false).1).1
                    0 L.EC_STATE_SAFE_OP (L.EC_TIMEOUTSTATE * 4)).1.setState 0
                  L.EC_STATE_OPERATIONAL)).1
              L.EC_TIMEOUTRET).1
            0).1
          0 L.EC_STATE_OPERATIONAL L.EC_TIMEOUTSTATE).1 := rfl
  rw [← e1, ← e2, ← e3]
  by_cases h1 : (InitECat.connect L w).1 ≠ 0
  · by_cases h2 : (InitECat.configure L (InitECat.connect L w).2).1 > 0
    · by_cases h3 : ((InitECat.bringUp L (InitECat.configure L
          (InitECat.connect L w).2).2).mem.ec_slave 0).state = L.EC_STATE_OPERATIONAL
      · have hI : InitECat L w
            = (true, InitECat.bringUp L (InitECat.configure L (InitECat.connect L w).2).2) := by
          simp only [InitECat]
          rw [if_pos h1, if_pos h2, if_pos h3]
        rw [hI]
        refine ⟨⟨fun _ => ⟨h1, h2, h3⟩, fun _ => rfl⟩, fun _ => ⟨rfl, h3, rfl, ?_⟩⟩
        simp only [InitECat.bringUp, InitECat.configure, InitECat.connect, call_calls, call_mem,
          List.append_assoc, List.cons_append, List.nil_append]
      · have hI : (InitECat L w).1 = false := by
          simp only [InitECat]
          rw [if_pos h1, if_pos h2, if_neg h3]
        simp [hI, h3]
    · have hI : (InitECat L w).1 = false := by
        simp only [InitECat]
        rw [if_pos h1, if_neg h2]
      simp only [hI]
      simp [h2]
  · have hI : (InitECat L w).1 = false := by
      simp only [InitECat]
      rw [if_neg h1]
    simp only [hI]
    simp [h1]

/-- C4, amended, at four inputs: with one unit on the quiet double `InitECat`
returns `true`; it returns `false` when `ec_init` fails, when `ec_config_init`
finds no slave, and when the Operational wait leaves `ec_slave[0]` at
SafeOperational. -/
theorem InitECat_true_iff_witness :
    (InitECat (quietBus Unit) (World.start () 1 (fun _ => 4) (fun _ => 0))).1 = true
    ∧ ¬ (InitECat closedBus (World.start () 1 (fun _ => 4) (fun _ => 0))).1 = true
    ∧ ¬ (InitECat (quietBus Unit) (World.start () 0 (fun _ => 4) (fun _ => 0))).1 = true
    ∧ ¬ (InitECat stuckBus (World.start () 1 (fun _ => 4) (fun _ => 0))).1 = true :=
  ⟨(InitECat_true_iff (quietBus Unit) (World.start () 1 (fun _ => 4) (fun _ => 0))
      _ _ _ _ _ _ _ _ _ rfl rfl rfl rfl rfl rfl rfl rfl rfl).1.mpr (by decide),
   fun h => absurd
    ((InitECat_true_iff closedBus (World.start () 1 (fun _ => 4) (fun _ => 0))
      _ _ _ _ _ _ _ _ _ rfl rfl rfl rfl rfl rfl rfl rfl rfl).1.mp h).1 (by decide),
   fun h => absurd
    ((InitECat_true_iff (quietBus Unit) (World.start () 0 (fun _ => 4) (fun _ => 0))
      _ _ _ _ _ _ _ _ _ rfl rfl rfl rfl rfl rfl rfl rfl rfl).1.mp h).2.1 (by decide),
   fun h => absurd
    ((InitECat_true_iff stuckBus (World.start () 1 (fun _ => 4) (fun _ => 0))
      _ _ _ _ _ _ _ _ _ rfl rfl rfl rfl rfl rfl rfl rfl rfl).1.mp h).2.2 (by decide)⟩

/-- C9, as stated, fails: on the same bus unit 1 is not at Operational after
the Operational wait, and `InitECat` produces no diagnostic entry at all. -/
theorem no_listing_for_unit_not_operational :
    ((InitECat.bringUp (quietBus Unit) (InitECat.configure (quietBus Unit)
        (InitECat.connect (quietBus Unit)
          (World.start () 1 (fun _ => 4) (fun _ => 0x1B))).2).2).mem.ec_slave 1).state = 4
    ∧ (quietBus Unit).EC_STATE_OPERATIONAL = 8
    ∧ (InitECat.bringUp (quietBus Unit) (InitECat.configure (quietBus Unit)
        (InitECat.connect (quietBus Unit)
          (World.start () 1 (fun _ => 4) (fun _ => 0x1B))).2).2).mem.ec_slavecount = 1
    ∧ diagnosticListing
        (InitECat (quietBus Unit) (World.start () 1 (fun _ => 4) (fun _ => 0x1B))).2.out = [] := by
  decide

/-- C9, amended: whenever the collective record `ec_slave[0]` is not at
Operational after the Operational wait (`ec_init` and `ec_config_init` having
succeeded), `InitECat` returns `false`, calls `ec_readstate`, and the
diagnostic listing it produces has exactly one entry (unit index, state, status
code) for each unit `i` in `1..ec_slavecount` whose state as left by
`ec_readstate` is not Operational, in increasing index order, and no other
entry. -/
theorem diagnostic_listing (L : SOEM σ) (w : World σ)
    (hopen : (InitECat.connect L w).1 ≠ 0)
    (hfound : (InitECat.configure L (InitECat.connect L w).2).1 > 0)
    (hnot : ((InitECat.bringUp L (InitECat.configure L (InitECat.connect L w).2).2).mem.ec_slave
              0).state ≠ L.EC_STATE_OPERATIONAL) :
    (InitECat L w).1 = false
    ∧ (InitECat L w).2.mem
        = (L.ec_readstate
            (InitECat.bringUp L (InitECat.configure L (InitECat.connect L w).2).2).mem).1
    ∧ (InitECat L w).2.calls.getLast? = some Call.readstate
    ∧ diagnosticListing (InitECat L w).2.out
        = diagnosticListing w.out
          ++ ((List.range' 1 (InitECat L w).2.mem.ec_slavecount.toNat).filter fun i =>
                decide (((InitECat L w).2.mem.ec_slave i).state ≠ L.EC_STATE_OPERATIONAL)).map
              fun i => (i, ((InitECat L w).2.mem.ec_slave i).state,
                ((InitECat L w).2.mem.ec_slave i).ALstatuscode) := by
  have hI : InitECat L w
      = (false, InitECat.diagnose L
          (InitECat.bringUp L (InitECat.configure L (InitECat.connect L w).2).2)) := by
    simp only [InitECat]
    rw [if_pos hopen, if_pos hfound, if_neg hnot]
  have hm : (InitECat L w).2.mem
      = (L.ec_readstate
          (InitECat.bringUp L (InitECat.configure L (InitECat.connect L w).2).2).mem).1 := by
    rw [hI]
    simp only [InitECat.diagnose, InitECat.listing, report_foldl_mem, call_mem, print_mem]
  refine ⟨by rw [hI], hm, ?_, ?_⟩
  · rw [hI]
    simp only [InitECat.diagnose, InitECat.listing, report_foldl_calls, call_calls,
      List.getLast?_concat]
  · rw [hm, hI]
    simp only [InitECat.diagnose, InitECat.listing, report_foldl_listing, call_mem, call_out,
      print_out, print_mem]
    simp [diagnosticListing, List.filterMap_append, InitECat.configure, InitECat.connect,
      InitECat.bringUp]

/-- C9, amended, on a bus with three units of which the first only is at
Operational: the listing names units 2 and 3, in that order. -/
theorem diagnostic_listing_witness :
    (InitECat stuckBus (World.start () 3 (fun i => if i = 1 then 8 else 4) (fun _ => 0x1B))).1
        = false
    ∧ diagnosticListing
        (InitECat stuckBus (World.start () 3 (fun i => if i = 1 then 8 else 4)
          (fun _ => 0x1B))).2.out = [(2, 4, 0x1B), (3, 4, 0x1B)] :=
  have h := diagnostic_listing stuckBus
    (World.start () 3 (fun i => if i = 1 then 8 else 4) (fun _ => 0x1B))
    (by decide) (by decide) (by decide)
  ⟨h.1, h.2.2.2.trans (by decide)⟩

/-! ## End-to-end run -/

/-- The calls of a run of `main` that gets past bring-up and returns, as
recorded and as made on the library: after the bring-up calls, three motion
commands with targets 0, 360 degrees and 0, each followed by its polls, then
the teardown. -/
theorem main_trace (L : SOEM σ) (fuel : Nat) (w wf : World σ) (rc : Int)
    (hup : (InitECat L w).1 = true) (h : main L fuel w = some (rc, wf)) :
    ∃ k1 k2 k3,
      wf.calls = (InitECat L w).2.calls
        ++ (motionWrites L.EC_TIMEOUTRXM 0 ++ pollCalls L.EC_TIMEOUTRXM (k1 + 1))
        ++ (motionWrites L.EC_TIMEOUTRXM 105905880 ++ pollCalls L.EC_TIMEOUTRXM (k2 + 1))
        ++ (motionWrites L.EC_TIMEOUTRXM 0 ++ pollCalls L.EC_TIMEOUTRXM (k3 + 1))
        ++ [ Call.writestate 0 L.EC_STATE_SAFE_OP,
             Call.statecheck 0 L.EC_STATE_SAFE_OP L.EC_TIMEOUTSTATE,
             Call.writestate 0 L.EC_STATE_PRE_OP,
             Call.statecheck 0 L.EC_STATE_PRE_OP L.EC_TIMEOUTSTATE,
             Call.close ]
      ∧ wf.mem = replay L
          ((motionWrites L.EC_TIMEOUTRXM 0 ++ pollCalls L.EC_TIMEOUTRXM (k1 + 1))
            ++ (motionWrites L.EC_TIMEOUTRXM 105905880 ++ pollCalls L.EC_TIMEOUTRXM (k2 + 1))
            ++ (motionWrites L.EC_TIMEOUTRXM 0 ++ pollCalls L.EC_TIMEOUTRXM (k3 + 1))
            ++ [ Call.writestate 0 L.EC_STATE_SAFE_OP,
                 Call.statecheck 0 L.EC_STATE_SAFE_OP L.EC_TIMEOUTSTATE,
                 Call.writestate 0 L.EC_STATE_PRE_OP,
                 Call.statecheck 0 L.EC_STATE_PRE_OP L.EC_TIMEOUTSTATE,
                 Call.close ])
          (InitECat L w).2.mem := by
  have h0 : toUInt 32 (Int.tdiv REVOLUTION_PULSES 360 * 0) = 0 := by decide
  have h360 : toUInt 32 (Int.tdiv REVOLUTION_PULSES 360 * 360) = 105905880 := by decide
  simp only [main, hup, Bool.true_eq_false, if_false] at h
  obtain ⟨w1, e1, h⟩ := Option.bind_eq_some.mp h
  obtain ⟨w2, e2, h⟩ := Option.bind_eq_some.mp h
  obtain ⟨w3, e3, h⟩ := Option.bind_eq_some.mp h
  obtain ⟨k1, c1, m1⟩ := GotoPos_trace L fuel 0 _ w1 e1
  obtain ⟨k2, c2, m2⟩ := GotoPos_trace L fuel 360 _ w2 e2
  obtain ⟨k3, c3, m3⟩ := GotoPos_trace L fuel 0 _ w3 e3
  rw [h0] at c1 c3 m1 m3
  rw [h360] at c2 m2
  refine ⟨k1, k2, k3, ?_, ?_⟩
  · cases h
    rw [shutdown_calls, c3, c2, c1]
  · cases h
    simp only [shutdown_mem, m3, m2, m1, replay_append]

/-- C8, as stated, fails: in a run where bring-up succeeds with one discovered
unit, `GotoPos(360)` makes 11 register operations before the monitor starts
polling, not 13. -/
theorem GotoPos_360_makes_11_operations :
    (InitECat (quietBus Unit) (World.start () 1 (fun _ => 4) (fun _ => 0))).1 = true
    ∧ (InitECat (quietBus Unit) (World.start () 1 (fun _ => 4) (fun _ => 0))).2.mem.ec_slavecount
        = 1
    ∧ ((GotoPos.sequence (quietBus Unit) 360
          (InitECat (quietBus Unit) (World.start () 1 (fun _ => 4) (fun _ => 0))).2).calls.drop
        (InitECat (quietBus Unit) (World.start () 1 (fun _ => 4) (fun _ => 0))).2.calls.length).length
        = 11
    ∧ ((GotoPos.sequence (quietBus Unit) 360
          (InitECat (quietBus Unit) (World.start () 1 (fun _ => 4) (fun _ => 0))).2).calls.drop
        (InitECat (quietBus Unit) (World.start () 1 (fun _ => 4) (fun _ => 0))).2.calls.length).length
        ≠ 13
    ∧ ((GotoPos.sequence (recordingBus fun _ => 1) 360
          (InitECat (recordingBus fun _ => 1)
            (World.start [] 1 (fun _ => 4) (fun _ => 0))).2).mem.priv.drop
        (InitECat (recordingBus fun _ => 1)
          (World.start [] 1 (fun _ => 4) (fun _ => 0))).2.mem.priv.length).length
        = 11 := by
  decide

/-- C8, amended: `GotoPos(360)` makes exactly 11 ordered register operations on
the library before the monitor starts polling, the writes of `motionWrites`
with target 105905880, the last of which is the commit write (0x001F to
0x6040); `GotoPos(0)` makes the same sequence with only the target value
replaced by 0; and a run of `main` whose bring-up succeeds and which returns
has made these sequences for the angles 0, 360 and 0, each followed by whole
polls, and then the teardown calls.  Each statement is made both of the memory
the library hands back (the calls are made, in this order, each on the memory
left by the previous one) and of the record. -/
theorem end_to_end_motion (L : SOEM σ) (w : World σ) :
    (∀ w1 : World σ,
        (GotoPos.sequence L 360 w1).mem = replay L (motionWrites L.EC_TIMEOUTRXM 105905880) w1.mem
        ∧ (GotoPos.sequence L 360 w1).calls
          = w1.calls ++ motionWrites L.EC_TIMEOUTRXM 105905880)
    ∧ (∀ w1 : World σ,
        (GotoPos.sequence L 0 w1).mem = replay L (motionWrites L.EC_TIMEOUTRXM 0) w1.mem
        ∧ (GotoPos.sequence L 0 w1).calls = w1.calls ++ motionWrites L.EC_TIMEOUTRXM 0)
    ∧ (motionWrites L.EC_TIMEOUTRXM 105905880).length = 11
    ∧ (motionWrites L.EC_TIMEOUTRXM 105905880).getLast?
        = some (Call.SDOwrite 1 0x6040 0 false 2 0x001F L.EC_TIMEOUTRXM)
    ∧ (motionWrites L.EC_TIMEOUTRXM 105905880).set 8
          (Call.SDOwrite 1 0x607A 0 false 4 0 L.EC_TIMEOUTRXM)
        = motionWrites L.EC_TIMEOUTRXM 0
    ∧ (∀ fuel rc wf, (InitECat L w).1 = true → main L fuel w = some (rc, wf) →
        ∃ k1 k2 k3,
          wf.calls = (InitECat L w).2.calls
            ++ (motionWrites L.EC_TIMEOUTRXM 0 ++ pollCalls L.EC_TIMEOUTRXM (k1 + 1))
            ++ (motionWrites L.EC_TIMEOUTRXM 105905880 ++ pollCalls L.EC_TIMEOUTRXM (k2 + 1))
            ++ (motionWrites L.EC_TIMEOUTRXM 0 ++ pollCalls L.EC_TIMEOUTRXM (k3 + 1))
            ++ [ Call.writestate 0 L.EC_STATE_SAFE_OP,
                 Call.statecheck 0 L.EC_STATE_SAFE_OP L.EC_TIMEOUTSTATE,
                 Call.writestate 0 L.EC_STATE_PRE_OP,
                 Call.statecheck 0 L.EC_STATE_PRE_OP L.EC_TIMEOUTSTATE,
                 Call.close ]
          ∧ wf.mem = replay L
              ((motionWrites L.EC_TIMEOUTRXM 0 ++ pollCalls L.EC_TIMEOUTRXM (k1 + 1))
                ++ (motionWrites L.EC_TIMEOUTRXM 105905880
                    ++ pollCalls L.EC_TIMEOUTRXM (k2 + 1))
                ++ (motionWrites L.EC_TIMEOUTRXM 0 ++ pollCalls L.EC_TIMEOUTRXM (k3 + 1))
                ++ [ Call.writestate 0 L.EC_STATE_SAFE_OP,
                     Call.statecheck 0 L.EC_STATE_SAFE_OP L.EC_TIMEOUTSTATE,
                     Call.writestate 0 L.EC_STATE_PRE_OP,
                     Call.statecheck 0 L.EC_STATE_PRE_OP L.EC_TIMEOUTSTATE,
                     Call.close ])
              (InitECat L w).2.mem) := by
  have h0 : toUInt 32 (toSInt 32 (Int.tdiv REVOLUTION_PULSES 360 * 0)) = 0 := by decide
  have h360 : toUInt 32 (toSInt 32 (Int.tdiv REVOLUTION_PULSES 360 * 360)) = 105905880 := by
    decide
  refine ⟨fun w1 => ⟨?_, ?_⟩, fun w1 => ⟨?_, ?_⟩, rfl, rfl, rfl, fun fuel rc wf hup h => ?_⟩
  · rw [sequence_mem, h360]
  · rw [sequence_calls, h360]
  · rw [sequence_mem, h0]
  · rw [sequence_calls, h0]
  · exact main_trace L fuel w wf rc hup h

/-- C8, amended, on the recording double with one unit and every call
succeeding: after bring-up the library receives from `GotoPos(360)` exactly
the 11 writes with target 105905880 and from `GotoPos(0)` the same with target
0, and `main` returns 0 with 53 calls received by the library in all. -/
theorem end_to_end_motion_witness :
    (InitECat (recordingBus fun _ => 1) (World.start [] 1 (fun _ => 4) (fun _ => 0))).1 = true
    ∧ (GotoPos.sequence (recordingBus fun _ => 1) 360
          (World.start [] 1 (fun _ => 4) (fun _ => 0))).mem.priv
        = motionWrites 700000 105905880
    ∧ (GotoPos.sequence (recordingBus fun _ => 1) 0
          (World.start [] 1 (fun _ => 4) (fun _ => 0))).mem.priv
        = motionWrites 700000 0
    ∧ (main (recordingBus fun _ => 1) 1 (World.start [] 1 (fun _ => 4) (fun _ => 0))).map
        (fun r => (r.1, r.2.mem.priv.length)) = some (0, 53) :=
  have h := end_to_end_motion (recordingBus fun _ => 1)
    (World.start [] 1 (fun _ => 4) (fun _ => 0))
  ⟨by decide,
   (congrArg Mem.priv (h.1 (World.start [] 1 (fun _ => 4) (fun _ => 0))).1).trans (by decide),
   (congrArg Mem.priv (h.2.1 (World.start [] 1 (fun _ => 4) (fun _ => 0))).1).trans (by decide),
   by decide⟩

/-! ## Completion monitor -/

/-- C3: against a double that supplies the statusword readings `S c`,
`S (c+1)`, ... (`c` readings having been served before) and answers position
reads in any way `P`, successfully or not:
* if the first `n` readings all have bit 12 set, `n` passes of the loop do not
  end `Wait`, and whenever `Wait` returns it has made at least `n + 1` polls;
* if reading number `k + 1` is the first with bit 12 clear, `Wait` returns
  after exactly `k + 1` polls, each a 32-bit read of 0x6064 followed by a
  16-bit read of 0x6041;
* replacing the position answers `P` by any `P1` changes neither whether
  `Wait` returns nor the calls it has made. -/
theorem Wait_ends_at_first_clear_bit12 (L0 : SOEM Nat) (P : Nat → Int × Nat) (S : Nat → Nat)
    (w : World Nat) :
    (∀ n, (∀ j, j < n → (S (w.mem.priv + j)).testBit 12 = true) →
        (∀ fuel, fuel ≤ n → Wait (scriptDouble L0 P S) fuel w = none)
        ∧ (∀ fuel w1, Wait (scriptDouble L0 P S) fuel w = some w1 →
            ∃ k, n ≤ k ∧ w1.calls = w.calls ++ pollCalls L0.EC_TIMEOUTRXM (k + 1)))
    ∧ (∀ k, (∀ j, j < k → (S (w.mem.priv + j)).testBit 12 = true) →
        (S (w.mem.priv + k)).testBit 12 = false →
        ∀ fuel, k < fuel →
          ∃ w1, Wait (scriptDouble L0 P S) fuel w = some w1
            ∧ w1.calls = w.calls ++ pollCalls L0.EC_TIMEOUTRXM (k + 1))
    ∧ (∀ (P1 : Nat → Int × Nat) fuel,
        (Wait (scriptDouble L0 P1 S) fuel w).map (fun x => x.calls)
          = (Wait (scriptDouble L0 P S) fuel w).map (fun x => x.calls)) := by
  refine ⟨fun n hset => ⟨fun fuel hle => ?_, fun fuel w1 h => ?_⟩,
    fun k hset hclear fuel hfuel => script_Wait_returns L0 P S k w fuel hset hclear hfuel,
    fun P1 fuel => ?_⟩
  · exact script_Wait_running L0 P S fuel w fun j hj => hset j (Nat.lt_of_lt_of_le hj hle)
  · obtain ⟨k, -, -, hclear, hc⟩ := script_Wait_some L0 P S fuel w w1 h
    refine ⟨k, ?_, hc⟩
    by_contra hlt
    rw [hset k (by omega)] at hclear
    cases hclear
  · cases hP : Wait (scriptDouble L0 P S) fuel w with
    | some w1 =>
      obtain ⟨k, hk, hset, hclear, hc⟩ := script_Wait_some L0 P S fuel w w1 hP
      obtain ⟨w2, hw2, hc2⟩ := script_Wait_returns L0 P1 S k w fuel hset hclear hk
      rw [hw2, Option.map_some', Option.map_some', hc, hc2]
    | none =>
      cases hP1 : Wait (scriptDouble L0 P1 S) fuel w with
      | none => rfl
      | some w2 =>
        obtain ⟨k, hk, hset, hclear, -⟩ := script_Wait_some L0 P1 S fuel w w2 hP1
        obtain ⟨w1, hw1, -⟩ := script_Wait_returns L0 P S k w fuel hset hclear hk
        rw [hP] at hw1
        cases hw1

/-- C3 at a script whose first three readings have bit 12 set and whose fourth
has it clear, with position reads that all fail: three passes do not end
`Wait`, four do, after exactly four polls. -/
theorem Wait_ends_at_first_clear_bit12_witness :
    Wait (scriptDouble (quietBus Nat) (fun n => (0, n))
        (fun n => if n < 3 then 0x1237 else 0x0237)) 3
        (World.start 0 1 (fun _ => 8) (fun _ => 0)) = none
    ∧ ∃ w1, Wait (scriptDouble (quietBus Nat) (fun n => (0, n))
        (fun n => if n < 3 then 0x1237 else 0x0237)) 4
        (World.start 0 1 (fun _ => 8) (fun _ => 0)) = some w1
      ∧ w1.calls = (World.start 0 1 (fun _ => 8) (fun _ => 0)).calls
          ++ pollCalls (quietBus Nat).EC_TIMEOUTRXM (3 + 1) :=
  have h := Wait_ends_at_first_clear_bit12 (quietBus Nat) (fun n => (0, n))
    (fun n => if n < 3 then 0x1237 else 0x0237) (World.start 0 1 (fun _ => 8) (fun _ => 0))
  ⟨(h.1 3 (by decide)).1 3 (Nat.le_refl 3), h.2.1 3 (by decide) (by decide) 4 (by decide)⟩

end EthercatMotor
